import Mathlib

/-!
# ADVi3++ LCD bridge (`Marlin/adv_i3_plus_plus.cpp`)

A shallow embedding of `i3PlusPrinterImpl`: the members of the class are the
record `Impl`, everything the class talks to (clock, serial link, command
queue, thermal manager, SD card, planner, print timer) is the record `World`,
and every member function is a function `World → World`.

Conventions.
* `millis_t` is `unsigned long` (32 bits): times are naturals below `2^32`
  and additions wrap.
* `int` and `unsigned int` are 16 bits wide (AVR target).
* `float` quantities are exact rationals.
* Frames sent to the panel are appended to `World.tx`; the answers the panel
  gives to read requests are taken from `World.rx`.
-/

namespace advi3pp

/-! ## Enumerations -/

/-- Background task of the scheduler (`enum class BackgroundTask`). -/
inductive BackgroundTask
  | None
  | LevelInit
  | LoadFilament
  | UnloadFilament
  | Move
  deriving DecidableEq, Repr

/-- Pages of the LCD panel named in the source, and `Other` for any further
value of the enumeration. -/
inductive Page
  | None
  | Boot
  | Print
  | Temperature
  | SdCard
  | Preheat
  | PidSettings
  | MotoSettings
  | System
  | PrintSettings
  | Filament
  | LevelingStart
  | Leveling
  | Tools
  | Statistics
  | AutoPidTuning
  | AutoPidGraph
  | AutoPidFinished
  | LcdUpdate
  | Mismatch
  | About
  | ThermalRunawayError
  | Other (code : Nat)
  deriving DecidableEq, Repr

/-- Addresses in the RAM of the panel (`enum class Variable`). -/
inductive Variable
  | TargetBed
  | FileName1
  | SelectedFileName
  | Preset1Bed
  | MotorSettingsX
  | PrintSettingsSpeed
  | TargetTemperature
  | TotalPrints
  | TotalPrintTime
  | LongestPrintTime
  | TotalFilament
  | MarlinVersion
  deriving DecidableEq, Repr

/-- Registers of the panel (`enum class Register`). -/
inductive Register
  | PictureID
  | Version
  deriving DecidableEq, Repr

/-- Actions sent by the panel, in the order of the `switch` of
`read_lcd_serial`. -/
inductive Action
  | SdCard
  | SdCardSelectFile
  | PrintStop
  | PrintPause
  | PrintResume
  | Preheat
  | Cooldown
  | MotorsSettings
  | SaveSettings
  | FactoryReset
  | PrintSettings
  | SavePrintSettings
  | LoadUnloadBack
  | Level
  | Filament
  | XPlus
  | XMinus
  | YPlus
  | YMinus
  | ZPlus
  | ZMinus
  | EPlus
  | EMinus
  | DisableMotors
  | HomeX
  | HomeY
  | HomeZ
  | HomeAll
  | Statistics
  | PidTuning
  | TemperatureGraph
  | Print
  | About
  | LcdUpdate
  deriving DecidableEq, Repr

/-- The case labels of the `switch` of `read_lcd_serial`, top to bottom. -/
def Action.all : List Action :=
  [.SdCard, .SdCardSelectFile, .PrintStop, .PrintPause, .PrintResume, .Preheat,
   .Cooldown, .MotorsSettings, .SaveSettings, .FactoryReset, .PrintSettings,
   .SavePrintSettings, .LoadUnloadBack, .Level, .Filament, .XPlus, .XMinus,
   .YPlus, .YMinus, .ZPlus, .ZMinus, .EPlus, .EMinus, .DisableMotors, .HomeX,
   .HomeY, .HomeZ, .HomeAll, .Statistics, .PidTuning, .TemperatureGraph,
   .Print, .About, .LcdUpdate]

/-- A `KeyValue` is the 16-bit word carried by an incoming frame. -/
abbrev KeyValue := Nat

/-- Modelled from the spec: `adv_i3_plus_plus_enums.h`, `adv_i3_plus_plus_utils.h`
and the Marlin configuration are not part of the sources. The numeric values of
the enumerators, the conversion of a word into a `Page`, the default capacity
of `Chars<>` and the compile-time switches are parameters. -/
structure Config where
  /-- Value of `KeyValue::Show`. -/
  Show : KeyValue
  /-- Value of `KeyValue::Back`. -/
  Back : KeyValue
  /-- Value of `KeyValue::Up`. -/
  Up : KeyValue
  /-- Value of `KeyValue::Down`. -/
  Down : KeyValue
  /-- Value of `KeyValue::Load`. -/
  Load : KeyValue
  /-- Value of `KeyValue::PidSettings`. -/
  PidSettings : KeyValue
  /-- Value of `KeyValue::LevelStart`. -/
  LevelStart : KeyValue
  /-- Value of `KeyValue::LevelStep1`. -/
  LevelStep1 : KeyValue
  /-- Value of `KeyValue::LevelStep2`. -/
  LevelStep2 : KeyValue
  /-- Value of `KeyValue::LevelStep3`. -/
  LevelStep3 : KeyValue
  /-- Value of `KeyValue::LevelStep4`. -/
  LevelStep4 : KeyValue
  /-- Value of `KeyValue::LevelFinish`. -/
  LevelFinish : KeyValue
  /-- Numeric value of each enumerator of `Action`. -/
  action_code : Action → Nat
  /-- Conversion `static_cast<Page>(word)`. -/
  page_of_word : Nat → Page
  /-- Default capacity of `Chars<>`. -/
  chars_size : Nat
  /-- Whether `ENABLED(PARK_HEAD_ON_PAUSE)` holds. -/
  PARK_HEAD_ON_PAUSE : Bool
  /-- Whether `ENABLED(PRINTCOUNTER)` holds. -/
  PRINTCOUNTER : Bool
  /-- Text of `SHORT_BUILD_VERSION`. -/
  SHORT_BUILD_VERSION : String
  /-- Value of `PID_dT`, the period of the PID loop used by `scalePID_i` and `scalePID_d`. -/
  PID_dT : ℚ

/-! ## Frames -/

/-- One item streamed into a frame with `<<`. -/
inductive Field
  | u8 (byte : Nat)
  | u16 (word : Nat)
  | page (p : Page)
  | chars (text : String)
  | duration (seconds : Nat)
  deriving DecidableEq, Repr

/-- Frames the controller sends to the panel. -/
inductive Frame
  | WriteRamDataRequest (var : Variable) (payload : List Field)
  | WriteRegisterDataRequest (reg : Register) (payload : List Field)
  | WriteCurveDataRequest (channels : Nat) (payload : List Field)
  | ReadRamDataRequest (var : Variable) (nb_words : Nat)
  | ReadRegisterDataRequest (reg : Register) (nb_bytes : Nat)
  deriving DecidableEq, Repr

/-- What `IncomingFrame` finds on the serial link at the start of a cycle. -/
inductive Incoming
  | NotAvailable
  | Malformed
  | Received (command : Nat) (action : Nat) (nb_words : Nat) (value : Nat)
  deriving DecidableEq, Repr

/-! ## State -/

/-- Hotend and bed temperature preset (`struct Preset`). -/
structure Preset where
  hotend : Nat
  bed : Nat
  deriving DecidableEq, Repr

/-- The array `Preset presets_[NB_PRESETS]`, with `NB_PRESETS = 3`. -/
structure Presets where
  slot0 : Preset
  slot1 : Preset
  slot2 : Preset
  deriving DecidableEq, Repr

/-- Size of the array of presets. -/
def NB_PRESETS : Nat := 3

/-- The elements of the array in order. -/
def Presets.toList (p : Presets) : List Preset := [p.slot0, p.slot1, p.slot2]

/-- Element `i` of the array, `none` outside of the array. -/
def Presets.get? (p : Presets) (i : Nat) : Option Preset := p.toList[i]?

/-- Data members of `i3PlusPrinterImpl`. -/
structure Impl where
  last_file_index_ : Nat
  next_op_time_ : Nat
  next_update_time_ : Nat
  background_task_ : BackgroundTask
  temp_graph_update_ : Bool
  last_page_ : Page
  presets_ : Presets
  adv_i3_pp_lcd_version_ : Nat
  deriving DecidableEq, Repr

/-- State of `print_job_timer`. -/
inductive Timer
  | Stopped
  | Running
  | Paused
  deriving DecidableEq, Repr

/-- A file of the SD card: short name and long name. -/
structure SdFile where
  filename : String
  longFilename : String
  deriving DecidableEq, Repr

/-- The controller and everything it reads or changes. -/
structure World where
  /-- The members of the class. -/
  impl : Impl
  /-- Value returned by `millis()`. -/
  millis : Nat
  /-- Frames sent to the panel, oldest first. -/
  tx : List Frame
  /-- Answers of the panel to the next read requests: `none` is an answer that
  does not arrive or is malformed, `some values` one that carries `values`. -/
  rx : List (Option (List Nat))
  /-- Commands waiting in the command queue of Marlin, oldest first. -/
  queue : List String
  /-- Calls of external routines that have no state in this model. -/
  external : List String
  /-- Handlers invoked by `read_lcd_serial`, oldest first. -/
  invoked : List Action
  /-- The firmware relay loop of `lcd_update_mode` has been entered. -/
  relay_mode : Bool
  /-- An array was indexed outside of its bounds. -/
  memory_fault : Bool
  axis_homed_X : Bool
  axis_homed_Y : Bool
  axis_homed_Z : Bool
  /-- Value of `thermalManager.target_temperature[0]`. -/
  target_temperature : Int
  /-- Value of `thermalManager.current_temperature[0]`. -/
  current_temperature : ℚ
  /-- Value of `thermalManager.target_temperature_bed`. -/
  target_temperature_bed : Int
  /-- Value of `thermalManager.current_temperature_bed`. -/
  current_temperature_bed : ℚ
  /-- Value of `fanSpeeds[0]`. -/
  fanSpeeds : Int
  feedrate_percentage : Int
  /-- Value of `planner.axis_steps_per_mm`. -/
  steps_per_mm_X : ℚ
  steps_per_mm_Y : ℚ
  steps_per_mm_Z : ℚ
  steps_per_mm_E : ℚ
  Kp : ℚ
  Ki : ℚ
  Kd : ℚ
  /-- Whether `card.initsd()` finds a usable card. -/
  card_present : Bool
  cardOK : Bool
  sdprinting : Bool
  /-- The files of the card; `card.getnrfilenames()` is the length. -/
  card_files : List SdFile
  /-- Value of `card.filename`. -/
  card_filename : String
  /-- Value of `card.longFilename`. -/
  card_longFilename : String
  /-- Arguments of the calls of `card.getfilename`, oldest first. -/
  card_requests : List Nat
  /-- Argument of the last `card.openFile`. -/
  card_open : Option String
  /-- Value of `card.percentDone()`. -/
  percentDone : Nat
  print_job_timer : Timer
  /-- Value of `print_job_timer.getStats()`. -/
  totalPrints : Nat
  finishedPrints : Nat
  printTime : Nat
  longestPrint : Nat
  filamentUsed : ℚ
  deriving DecidableEq

/-! ## Machine arithmetic -/

/-- Conversion to `uint16_t`. -/
def toUint16 (v : Int) : Nat := (v % 65536).toNat

/-- Conversion to `int16_t`. -/
def toInt16 (v : Int) : Int := (v + 32768) % 65536 - 32768

/-- Conversion of a `float` to an integer: truncation toward zero. -/
def truncate (q : ℚ) : Int := q.num.tdiv q.den

/-- Sum of two `millis_t` values. -/
def millis_add (now delta : Nat) : Nat := (now + delta) % 4294967296

/-- Modelled from the spec: the Marlin macro `PENDING(NOW, SOON)` is not part of
the sources. The deadline comparison is wraparound tolerant and made on the
arithmetic difference: `(long)(NOW - SOON) < 0` on 32-bit values. -/
def PENDING (now soon : Nat) : Bool :=
  decide (2147483648 ≤ (now % 4294967296 + (4294967296 - soon % 4294967296)) % 4294967296)

/-- Modelled from the spec: the Marlin macro `ELAPSED(NOW, SOON)`, the negation
of `PENDING`. -/
def ELAPSED (now soon : Nat) : Bool := !PENDING now soon

/-- Transform a value from a scale to another one:
`value * targetScale / valueScale` on `int16_t` arguments, the product and
the quotient being formed in `int`. -/
def scale (value valueScale targetScale : Int) : Int :=
  toInt16 (Int.tdiv (toInt16 (toInt16 value * toInt16 targetScale)) (toInt16 valueScale))

/-! ## Assignments -/

/-- Assignment to members of the class. -/
def modify_impl (f : Impl → Impl) (w : World) : World := { w with impl := f w.impl }

/-- Assignment `background_task_ = task`. -/
def set_background_task (task : BackgroundTask) (w : World) : World :=
  modify_impl (fun i => { i with background_task_ := task }) w

/-- Assignment `temp_graph_update_ = flag`. -/
def set_temp_graph_update (flag : Bool) (w : World) : World :=
  modify_impl (fun i => { i with temp_graph_update_ := flag }) w

/-- Assignment `last_file_index_ = index`. -/
def set_last_file_index (index : Nat) (w : World) : World :=
  modify_impl (fun i => { i with last_file_index_ := index }) w

/-- Assignment `last_page_ = page`. -/
def set_last_page (page : Page) (w : World) : World :=
  modify_impl (fun i => { i with last_page_ := page }) w

/-- Assignment to the array `presets_`. -/
def set_presets (presets : Presets) (w : World) : World :=
  modify_impl (fun i => { i with presets_ := presets }) w

/-- Assignment `next_op_time_ = time`. -/
def set_next_op_time (time : Nat) (w : World) : World :=
  modify_impl (fun i => { i with next_op_time_ := time }) w

/-- Assignment `next_update_time_ = time`. -/
def set_next_update_time_to (time : Nat) (w : World) : World :=
  modify_impl (fun i => { i with next_update_time_ := time }) w

/-- Assignment `adv_i3_pp_lcd_version_ = version`. -/
def set_lcd_version (version : Nat) (w : World) : World :=
  modify_impl (fun i => { i with adv_i3_pp_lcd_version_ := version }) w

/-- Assignment `axis_homed[X_AXIS] = axis_homed[Y_AXIS] = axis_homed[Z_AXIS] = flag`. -/
def set_axis_homed (flag : Bool) (w : World) : World :=
  { w with axis_homed_X := flag, axis_homed_Y := flag, axis_homed_Z := flag }

/-- Assignment `fanSpeeds[0] = speed`. -/
def set_fanSpeeds (speed : Int) (w : World) : World := { w with fanSpeeds := speed }

/-- Assignment `feedrate_percentage = percentage`. -/
def set_feedrate_percentage (percentage : Int) (w : World) : World :=
  { w with feedrate_percentage := percentage }

/-- Assignments to `planner.axis_steps_per_mm` and to the PID parameters. -/
def set_motors_and_pid (x y z e p i d : ℚ) (w : World) : World :=
  { w with steps_per_mm_X := x, steps_per_mm_Y := y, steps_per_mm_Z := z, steps_per_mm_E := e,
           Kp := p, Ki := i, Kd := d }

/-- An access to an array outside of its bounds. -/
def raise_memory_fault (w : World) : World := { w with memory_fault := true }

/-- Entry into the relay loop of `lcd_update_mode`. -/
def enter_relay_mode (w : World) : World := { w with relay_mode := true }

/-- Record of the call of a handler. -/
def record_invoked (a : Action) (w : World) : World := { w with invoked := w.invoked ++ [a] }

/-- The clock shows `now`. -/
def set_millis (now : Nat) (w : World) : World := { w with millis := now }

/-- The answer at the head of `rx` is consumed. -/
def consume_answer (w : World) : World := { w with rx := w.rx.tail }

/-! ## Frame helpers -/

/-- Constructor `Uint16(value)` from an integer. -/
def Uint16 (v : Int) : Field := Field.u16 (toUint16 v)

/-- Constructor `Uint16(value)` from a `float`. -/
def Uint16f (q : ℚ) : Field := Field.u16 (toUint16 (truncate q))

/-- Modelled from the spec: `Chars<S>` is a fixed-capacity character buffer and
overflow truncates. -/
def Chars (S : Nat) (text : String) : Field := Field.chars (String.mk (text.data.take S))

/-- Method `send()` of an outgoing frame. -/
def send (f : Frame) (w : World) : World := { w with tx := w.tx ++ [f] }

/-- Modelled from the spec: `response.receive(frame)` waits for the answer to a
read request of `count` values; it fails when no answer arrives or when the
answer does not match the request. The answer is consumed in both cases. -/
def receive (count : Nat) (w : World) : Option (List Nat) × World :=
  match w.rx with
  | some values :: _ =>
    if values.length = count then (some values, consume_answer w)
    else (none, consume_answer w)
  | _ => (none, consume_answer w)

/-- Item `i` of a response read with `>>` as a `Uint16`. -/
def word (values : List Nat) (i : Nat) : Nat := values.getD i 0 % 65536

/-! ## Command queue -/

/-- Modelled from the spec: `enqueue_and_echo_command` submits a command text
to the command queue. -/
def enqueue_and_echo_command (cmd : String) (w : World) : World :=
  { w with queue := w.queue ++ [cmd] }

/-- Modelled from the spec: `enqueue_and_echo_commands_P` submits a command
text stored in program memory to the command queue. -/
def enqueue_and_echo_commands_P (cmd : String) (w : World) : World :=
  { w with queue := w.queue ++ [cmd] }

/-- Modelled from the spec: `clear_command_queue` empties the command queue. -/
def clear_command_queue (w : World) : World := { w with queue := [] }

/-- A call of an external routine that has no state in this model. -/
def call_external (name : String) (w : World) : World :=
  { w with external := w.external ++ [name] }

/-! ## Scheduler and status publisher -/

/-- Set the next (minimal) background task time. -/
def set_next_background_task_time (delta : Nat) (w : World) : World :=
  set_next_op_time (millis_add w.millis delta) w

/-- Set the next (minimal) update time. -/
def set_next_update_time (delta : Nat) (w : World) : World :=
  set_next_update_time_to (millis_add w.millis delta) w

/-- Show the given page on the LCD screen. -/
def show_page (page : Page) (w : World) : World :=
  send (Frame.WriteRegisterDataRequest Register.PictureID [Field.u8 0, Field.page page]) w

/-- Start the bed leveling process. -/
def leveling_init (w : World) : World :=
  if w.axis_homed_X && w.axis_homed_Y && w.axis_homed_Z then
    show_page Page.Leveling (set_background_task BackgroundTask.None w)
  else
    set_next_background_task_time 200 w

/-- Unload the filament if the temperature is high enough. -/
def unload_filament (w : World) : World :=
  let w1 := if (w.target_temperature : ℚ) - 10 ≤ w.current_temperature
    then enqueue_and_echo_commands_P "G1 E-1 F120" w else w
  set_next_background_task_time 500 w1

/-- Load the filament if the temperature is high enough. -/
def load_filament (w : World) : World :=
  let w1 := if (w.target_temperature : ℚ) - 10 ≤ w.current_temperature
    then enqueue_and_echo_commands_P "G1 E1 F120" w else w
  set_next_background_task_time 500 w1

/-- If there is an operation running, execute its next step. -/
def execute_background_task (w : World) : World :=
  if !ELAPSED w.millis w.impl.next_op_time_ then w
  else
    match w.impl.background_task_ with
    | BackgroundTask.LevelInit => leveling_init w
    | BackgroundTask.UnloadFilament => unload_filament w
    | BackgroundTask.LoadFilament => load_filament w
    | _ => w

/-- Update the graphics (two channels: the bed and the hotend). -/
def update_graph_data (w : World) : World :=
  send (Frame.WriteCurveDataRequest 3
    [Uint16f w.current_temperature_bed, Uint16f w.current_temperature]) w

/-- The frame of `send_status_update`. -/
def status_frame (w : World) : Frame :=
  Frame.WriteRamDataRequest Variable.TargetBed
    [Uint16 w.target_temperature_bed,
     Uint16f w.current_temperature_bed,
     Uint16 w.target_temperature,
     Uint16f w.current_temperature,
     Uint16 (scale w.fanSpeeds 256 100),
     Uint16 w.percentDone]

/-- Update the status of the printer on the LCD. -/
def send_status_update (w : World) : World :=
  let current_time := w.millis
  if !ELAPSED current_time w.impl.next_update_time_ then w
  else
    let w1 := set_next_update_time 500 w
    let w2 := send (status_frame w1) w1
    if w2.impl.temp_graph_update_ then update_graph_data w2 else w2

/-! ## External collaborators -/

/-- Modelled from the spec: `thermalManager.setTargetHotend(celsius, 0)` sets
the target temperature of the hotend. -/
def setTargetHotend (celsius : Int) (w : World) : World :=
  { w with target_temperature := celsius }

/-- Modelled from the spec: `thermalManager.setTargetBed(celsius)` sets the
target temperature of the bed. -/
def setTargetBed (celsius : Int) (w : World) : World :=
  { w with target_temperature_bed := celsius }

/-- Modelled from the spec: `thermalManager.disable_all_heaters()` sets both
targets to zero. -/
def disable_all_heaters (w : World) : World :=
  setTargetBed 0 (setTargetHotend 0 w)

/-- Modelled from the spec: `card.initsd()` leaves `cardOK` set exactly when a
usable card is found. -/
def initsd (w : World) : World := { w with cardOK := w.card_present }

/-- Modelled from the spec: `card.getnrfilenames()`, a `uint16_t`. -/
def getnrfilenames (w : World) : Nat := w.card_files.length % 65536

/-- Modelled from the spec: `card.getfilename(nr)` selects file `nr` of the
card; the names are left as they are when the card has no such file. -/
def getfilename (nr : Nat) (w : World) : World :=
  let w1 := { w with card_requests := w.card_requests ++ [nr] }
  match w.card_files[nr]? with
  | some f => { w1 with card_filename := f.filename, card_longFilename := f.longFilename }
  | none => w1

/-- Modelled from the spec: `card.startFileprint()` starts printing when the
card is usable. -/
def startFileprint (w : World) : World :=
  if w.cardOK then { w with sdprinting := true } else w

/-- Modelled from the spec: `card.openFile(name, true)` opens a file for
reading. -/
def openFile (name : String) (w : World) : World := { w with card_open := some name }

/-- Modelled from the spec: `card.stopSDPrint()` stops printing and closes the
file. -/
def stopSDPrint (w : World) : World := { w with sdprinting := false, card_open := none }

/-- Modelled from the spec: `card.pauseSDPrint()` suspends printing. -/
def pauseSDPrint (w : World) : World := { w with sdprinting := false }

/-- Modelled from the spec: `print_job_timer.start()`, `stop()` and `pause()`
set the state of the timer. -/
def set_timer (t : Timer) (w : World) : World := { w with print_job_timer := t }

/-! ## Pages and versions -/

/-- Retrieve the current page on the LCD screen. -/
def get_current_page (C : Config) (w : World) : Page × World :=
  let w1 := send (Frame.ReadRegisterDataRequest Register.PictureID 2) w
  let response := receive 2 w1
  match response.1 with
  | none => (Page.None, response.2)
  | some bytes =>
    (C.page_of_word ((bytes.getD 0 0 % 256) * 256 + bytes.getD 1 0 % 256), response.2)

/-- Get the current LCD firmware version. -/
def get_lcd_firmware_version (w : World) : String × World :=
  let w1 := send (Frame.ReadRegisterDataRequest Register.Version 1) w
  let response := receive 1 w1
  match response.1 with
  | none => ("Unknown", response.2)
  | some bytes =>
    let version := bytes.getD 0 0 % 256
    (toString (version / 16) ++ "." ++ toString (version % 16), response.2)

/-- Convert a version from its hexadecimal representation. -/
def convert_version (hex_version : Nat) : String :=
  toString (hex_version / 256) ++ "." ++ toString ((hex_version % 256) / 16) ++ "."
    ++ toString (hex_version % 16)

/-- Version of this firmware (`advi3_pp_version`). -/
def advi3_pp_version : Nat := 0x0101

/-- Oldest compatible version of the LCD part. -/
def advi3_pp_oldest_lcd_compatible_version : Nat := 0x0100

/-- Newest compatible version of the LCD part. -/
def advi3_pp_newest_lcd_compatible_version : Nat := 0x0101

/-- Send the different versions to the LCD screen. -/
def send_versions (C : Config) (w : World) : World :=
  let marlin_version := Chars 16 C.SHORT_BUILD_VERSION
  let motherboard_version := Chars 16 (convert_version advi3_pp_version)
  let advi3pp_lcd_version := Chars 16 (convert_version w.impl.adv_i3_pp_lcd_version_)
  let r := get_lcd_firmware_version w
  send (Frame.WriteRamDataRequest Variable.MarlinVersion
    [marlin_version, motherboard_version, advi3pp_lcd_version, Chars 16 r.1]) r.2

/-- Send statistics to the LCD screen. -/
def send_stats (C : Config) (w : World) : World :=
  let w1 := send (Frame.WriteRamDataRequest Variable.TotalPrints
    [Uint16 w.totalPrints, Uint16 w.finishedPrints]) w
  if C.PRINTCOUNTER then
    let w2 := send (Frame.WriteRamDataRequest Variable.TotalPrintTime
      [Field.duration w.printTime]) w1
    let w3 := send (Frame.WriteRamDataRequest Variable.LongestPrintTime
      [Field.duration w.longestPrint]) w2
    let filament_used :=
      toString (toUint16 (truncate (w.filamentUsed / 1000))) ++ "."
        ++ toString (toUint16 (truncate (w.filamentUsed / 100)) % 10)
    send (Frame.WriteRamDataRequest Variable.TotalFilament
      [Chars C.chars_size (String.mk (filament_used.data.take C.chars_size))]) w3
  else w1

/-- PID automatic tuning is finished. -/
def auto_pid_finished (w : World) : World :=
  call_external "settings.save"
    (enqueue_and_echo_command "M106 S0" (show_page Page.AutoPidFinished w))

/-- Display the Thermal Runaway Error screen. -/
def temperature_error (w : World) : World := show_page Page.ThermalRunawayError w

/-- Initialize the printer and its LCD. -/
def setup (C : Config) (w : World) : World :=
  show_page Page.Boot (send_versions C (call_external "Serial2.begin" w))

/-! ## Action handlers -/

/-- Get a filename with a given index: the file requested from the card is
`last_file_index_ - index`, computed on `uint16_t`. -/
def get_file_name (C : Config) (index : Nat) (w : World) : Field × World :=
  let w1 := getfilename ((w.impl.last_file_index_ + 65536 - index) % 65536) w
  (Chars C.chars_size w1.card_longFilename, w1)

/-- The loop of `sd_card` that reads the names of the visible files. -/
def get_file_names (C : Config) : List Nat → World → List Field × World
  | [], w => ([], w)
  | index :: rest, w =>
    let r := get_file_name C index w
    let rs := get_file_names C rest r.2
    (r.1 :: rs.1, rs.2)

/-- Number of files shown on the SD card page. -/
def NB_VISIBLE_FILES : Nat := 5

/-- The part of `sd_card` that moves `last_file_index_`: the `switch` on
`KeyValue::Up` and `KeyValue::Down`, entered with more than five files. -/
def sd_card_scroll (C : Config) (key_value : KeyValue) (w : World) : World :=
  let nb_files := getnrfilenames w
  let last := w.impl.last_file_index_
  if nb_files > NB_VISIBLE_FILES then
    if key_value = C.Up then
      if (last + NB_VISIBLE_FILES) % 65536 < nb_files then
        set_last_file_index ((last + NB_VISIBLE_FILES) % 65536) w
      else w
    else if key_value = C.Down then
      if last ≥ NB_VISIBLE_FILES then
        set_last_file_index (last - NB_VISIBLE_FILES) w
      else w
    else w
  else w

/-- The part of `sd_card` that follows the handling of `KeyValue::Show`: from
the test of `card.cardOK` to the end. -/
def sd_card_list (C : Config) (key_value : KeyValue) (w : World) : World :=
  if ¬ w.cardOK then w
  else
    let r := get_file_names C (List.range NB_VISIBLE_FILES) (sd_card_scroll C key_value w)
    show_page Page.SdCard (send (Frame.WriteRamDataRequest Variable.FileName1 r.1) r.2)

/-- LCD SD card menu. -/
def sd_card (C : Config) (key_value : KeyValue) (w : World) : World :=
  if w.sdprinting then show_page Page.Print w
  else if key_value = C.Show then
    let w1 := initsd w
    if w1.cardOK then
      sd_card_list C key_value (set_last_file_index ((getnrfilenames w1 + 65535) % 65536) w1)
    else
      show_page Page.Temperature (set_temp_graph_update true w1)
  else sd_card_list C key_value w

/-- Select a filename as sent by the LCD screen. -/
def sd_card_select_file (C : Config) (key_value : KeyValue) (w : World) : World :=
  if ¬ w.cardOK then w
  else
    let file_index := key_value % 65536
    if file_index > w.impl.last_file_index_ then w
    else
      let w1 := getfilename ((w.impl.last_file_index_ + 65536 - file_index) % 65536) w
      let name := Chars C.chars_size w1.card_longFilename
      let w2 := send (Frame.WriteRamDataRequest Variable.SelectedFileName [name]) w1
      let w3 := set_timer Timer.Running (startFileprint (openFile w2.card_filename w2))
      show_page Page.Print (set_temp_graph_update true w3)

/-- Stop printing. -/
def print_stop (w : World) : World :=
  let w1 := call_external "quickstop_stepper" (clear_command_queue (stopSDPrint w))
  let w2 := disable_all_heaters (set_timer Timer.Stopped w1)
  set_temp_graph_update false (set_fanSpeeds 0 w2)

/-- Pause printing. -/
def print_pause (C : Config) (w : World) : World :=
  let w1 := set_timer Timer.Paused (pauseSDPrint w)
  if C.PARK_HEAD_ON_PAUSE then enqueue_and_echo_commands_P "M125" w1 else w1

/-- Resume the current print. -/
def print_resume (C : Config) (w : World) : World :=
  if C.PARK_HEAD_ON_PAUSE then enqueue_and_echo_commands_P "M24" w
  else set_timer Timer.Running (startFileprint w)

/-- The presets read from a response of six words. -/
def presets_of_response (values : List Nat) : Presets :=
  { slot0 := { hotend := word values 0, bed := word values 1 }
    slot1 := { hotend := word values 2, bed := word values 3 }
    slot2 := { hotend := word values 4, bed := word values 5 } }

/-- The payload of the frame of the presets. -/
def presets_payload (p : Presets) : List Field :=
  [Uint16 p.slot0.hotend, Uint16 p.slot0.bed, Uint16 p.slot1.hotend, Uint16 p.slot1.bed,
   Uint16 p.slot2.hotend, Uint16 p.slot2.bed]

/-- Preheat the nozzle and save the presets. The text of a command is built in
a `Chars<>`; the commands built here are short and taken not to be cut. -/
def preheat (C : Config) (key_value : KeyValue) (w : World) : World :=
  if key_value = C.Show then
    show_page Page.Preheat
      (send (Frame.WriteRamDataRequest Variable.Preset1Bed (presets_payload w.impl.presets_)) w)
  else
    let w1 := send (Frame.ReadRamDataRequest Variable.Preset1Bed 6) w
    let response := receive 6 w1
    let w2 := response.2
    match response.1 with
    | none => w2
    | some values =>
      let w3 := set_presets (presets_of_response values) w2
      let w4 := enqueue_and_echo_commands_P "M500" w3
      let presetIndex := (key_value % 65536 + 65535) % 65536
      if presetIndex ≥ NB_PRESETS then w4
      else
        match w4.impl.presets_.get? presetIndex with
        | none => raise_memory_fault w4
        | some preset =>
          let w5 := enqueue_and_echo_command ("M104 S" ++ toString preset.hotend) w4
          enqueue_and_echo_command ("M140 S" ++ toString preset.bed) w5

/-- Cooldown the bed and the nozzle. -/
def cooldown (w : World) : World := disable_all_heaters w

/-- Marlin macro `unscalePID_i`. -/
def unscalePID_i (C : Config) (i : ℚ) : ℚ := i / C.PID_dT

/-- Marlin macro `unscalePID_d`. -/
def unscalePID_d (C : Config) (d : ℚ) : ℚ := d * C.PID_dT

/-- Marlin macro `scalePID_i`. -/
def scalePID_i (C : Config) (i : ℚ) : ℚ := i * C.PID_dT

/-- Marlin macro `scalePID_d`. -/
def scalePID_d (C : Config) (d : ℚ) : ℚ := d / C.PID_dT

/-- Display on the LCD screen the Motors or PID settings. -/
def motors_or_pid_settings (C : Config) (key_value : KeyValue) (w : World) : World :=
  let w1 := send (Frame.WriteRamDataRequest Variable.MotorSettingsX
    [Uint16f (w.steps_per_mm_X * 10), Uint16f (w.steps_per_mm_Y * 10),
     Uint16f (w.steps_per_mm_Z * 10), Uint16f (w.steps_per_mm_E * 10),
     Uint16f (w.Kp * 10), Uint16f (unscalePID_i C w.Ki * 10),
     Uint16f (unscalePID_d C w.Kd * 10)]) w
  show_page (if key_value = C.PidSettings then Page.PidSettings else Page.MotoSettings) w1

/-- Save the Motors and PID settings. -/
def save_motors_or_pid_settings (C : Config) (w : World) : World :=
  let w1 := send (Frame.ReadRamDataRequest Variable.MotorSettingsX 7) w
  let response := receive 7 w1
  let w2 := response.2
  match response.1 with
  | none => w2
  | some values =>
    let w3 := set_motors_and_pid
      ((word values 0 : ℚ) / 10) ((word values 1 : ℚ) / 10)
      ((word values 2 : ℚ) / 10) ((word values 3 : ℚ) / 10)
      ((word values 4 : ℚ) / 10)
      (scalePID_i C ((word values 5 : ℚ) / 10))
      (scalePID_d C ((word values 6 : ℚ) / 10)) w2
    show_page Page.System (enqueue_and_echo_commands_P "M500" w3)

/-- Reset all settings of the printer to factory ones. -/
def factory_reset (w : World) : World :=
  enqueue_and_echo_commands_P "M500" (enqueue_and_echo_commands_P "M502" w)

/-- Display on the LCD screen the printing settings. -/
def print_settings (w : World) : World :=
  let w1 := send (Frame.WriteRamDataRequest Variable.PrintSettingsSpeed
    [Uint16 w.feedrate_percentage, Uint16 w.target_temperature,
     Uint16 w.target_temperature_bed, Uint16 (scale w.fanSpeeds 256 100)]) w
  show_page Page.PrintSettings w1

/-- Save the printing settings. -/
def save_print_settings (w : World) : World :=
  let w1 := send (Frame.ReadRamDataRequest Variable.PrintSettingsSpeed 4) w
  let response := receive 4 w1
  let w2 := response.2
  match response.1 with
  | none => w2
  | some values =>
    let w3 := set_feedrate_percentage (word values 0) w2
    let w4 := setTargetBed (word values 2) (setTargetHotend (word values 1) w3)
    let w5 := set_fanSpeeds (scale (word values 3) 100 256) w4
    show_page Page.Print w5

/-- Handle back from the Load or Unload LCD screen. -/
def load_unload_back (w : World) : World :=
  let w1 := set_background_task BackgroundTask.None w
  let w2 := enqueue_and_echo_commands_P "G90" (clear_command_queue w1)
  show_page Page.Filament (setTargetHotend 0 w2)

/-- The three moves of a leveling step. -/
def level_step (xy : String) (w : World) : World :=
  enqueue_and_echo_commands_P "G1 Z0 F1000"
    (enqueue_and_echo_commands_P xy (enqueue_and_echo_commands_P "G1 Z10 F2000" w))

/-- Handle leveling. -/
def level (C : Config) (key_value : KeyValue) (w : World) : World :=
  if key_value = C.LevelStart then
    let w1 := show_page Page.LevelingStart w
    let w2 := set_axis_homed false w1
    let w3 := enqueue_and_echo_commands_P "G28" (enqueue_and_echo_commands_P "G90" w2)
    set_background_task BackgroundTask.LevelInit (set_next_op_time (millis_add w3.millis 200) w3)
  else if key_value = C.LevelStep1 then level_step "G1 X30 Y30 F6000" w
  else if key_value = C.LevelStep2 then level_step "G1 X170 Y170 F6000" w
  else if key_value = C.LevelStep3 then level_step "G1 X170 Y30 F6000" w
  else if key_value = C.LevelStep4 then level_step "G1 X30 Y170 F6000" w
  else if key_value = C.LevelFinish then
    show_page Page.Tools (enqueue_and_echo_commands_P "G1 Z30 F2000" w)
  else w

/-- Handle the Filament screen. -/
def filament (C : Config) (key_value : KeyValue) (w : World) : World :=
  if key_value = C.Show then
    show_page Page.Filament
      (send (Frame.WriteRamDataRequest Variable.TargetTemperature [Field.u16 200]) w)
  else
    let w1 := send (Frame.ReadRamDataRequest Variable.TargetTemperature 1) w
    let response := receive 1 w1
    let w2 := response.2
    match response.1 with
    | none => w2
    | some values =>
      let w3 := enqueue_and_echo_commands_P "G91" (setTargetHotend (word values 0) w2)
      set_background_task
        (if key_value = C.Load then BackgroundTask.LoadFilament
          else BackgroundTask.UnloadFilament)
        (set_next_op_time (millis_add w3.millis 500) w3)

/-- Move the nozzle: the body shared by the six `move_` handlers of the axes. -/
def move (cmd : String) (w : World) : World :=
  enqueue_and_echo_commands_P "G90"
    (enqueue_and_echo_commands_P cmd
      (enqueue_and_echo_commands_P "G91" (clear_command_queue w)))

/-- Move the nozzle. -/
def move_x_plus (w : World) : World := move "G1 X5 F3000" w

/-- Move the nozzle. -/
def move_x_minus (w : World) : World := move "G1 X-5 F3000" w

/-- Move the nozzle. -/
def move_y_plus (w : World) : World := move "G1 Y5 F3000" w

/-- Move the nozzle. -/
def move_y_minus (w : World) : World := move "G1 Y-5 F3000" w

/-- Move the nozzle. -/
def move_z_plus (w : World) : World := move "G1 Z0.5 F3000" w

/-- Move the nozzle. -/
def move_z_minus (w : World) : World := move "G1 Z-0.5 F3000" w

/-- Extrude some filament. -/
def move_e_plus (w : World) : World :=
  if (180 : ℚ) ≤ w.current_temperature then move "G1 E1 F120" w else w

/-- Unextrude. -/
def move_e_minus (w : World) : World :=
  if (180 : ℚ) ≤ w.current_temperature then move "G1 E-1 F120" w else w

/-- Disable the motors. -/
def disable_motors (w : World) : World :=
  set_axis_homed false (enqueue_and_echo_commands_P "M84" w)

/-- Go to home on the X axis. -/
def home_X (w : World) : World := enqueue_and_echo_commands_P "G28 X0" w

/-- Go to home on the Y axis. -/
def home_y (w : World) : World := enqueue_and_echo_commands_P "G28 Y0" w

/-- Go to home on the Z axis. -/
def home_z (w : World) : World := enqueue_and_echo_commands_P "G28 Z0" w

/-- Go to home on all axis. -/
def home_all (w : World) : World := enqueue_and_echo_commands_P "G28" w

/-- Display statistics on the LCD screen. -/
def statistics (C : Config) (w : World) : World :=
  show_page Page.Statistics (send_stats C w)

/-- Handle PID tuning. -/
def pid_tuning (C : Config) (key_value : KeyValue) (w : World) : World :=
  if key_value = C.Show then
    show_page Page.AutoPidTuning
      (send (Frame.WriteRamDataRequest Variable.TargetTemperature [Field.u16 200]) w)
  else
    let w1 := send (Frame.ReadRamDataRequest Variable.TargetTemperature 1) w
    let response := receive 1 w1
    let w2 := response.2
    match response.1 with
    | none => w2
    | some values =>
      let w3 := enqueue_and_echo_command "M106 S255" w2
      let w4 := enqueue_and_echo_command
        ("M303 S" ++ toString (word values 0) ++ "E0 C8 U1") w3
      show_page Page.AutoPidGraph (set_temp_graph_update true w4)

/-- Show the temperatures on the LCD screen. -/
def temperature_graph (C : Config) (key_value : KeyValue) (w : World) : World :=
  if key_value = C.Back then
    show_page w.impl.last_page_ (set_temp_graph_update false w)
  else
    let r := get_current_page C w
    show_page Page.Temperature (set_temp_graph_update true (set_last_page r.1 r.2))

/-- Show the printing screen. -/
def print (C : Config) (w : World) : World :=
  let w1 := set_temp_graph_update true w
  let w2 := if ¬ w1.sdprinting then
      send (Frame.WriteRamDataRequest Variable.SelectedFileName [Chars C.chars_size ""]) w1
    else w1
  show_page Page.Print w2

/-- Show the LCD Update Mode screen. The loop that follows relays bytes between
the two serial ports for ever: the function does not return, which the flag
`relay_mode` records. -/
def lcd_update_mode (w : World) : World :=
  enter_relay_mode (show_page Page.LcdUpdate w)

/-- Display the About screen. -/
def about (C : Config) (key_value : KeyValue) (w : World) : World :=
  let w1 := set_lcd_version (key_value % 65536) w
  let w2 := send_versions C w1
  if w2.impl.adv_i3_pp_lcd_version_ < advi3_pp_oldest_lcd_compatible_version
      ∨ w2.impl.adv_i3_pp_lcd_version_ > advi3_pp_newest_lcd_compatible_version then
    show_page Page.Mismatch w2
  else show_page Page.About w2

/-! ## Dispatcher and control loop -/

/-- The handler the `switch` of `read_lcd_serial` calls for a case label. -/
def handler (C : Config) (action : Action) (key_value : KeyValue) (w : World) : World :=
  match action with
  | Action.SdCard => sd_card C key_value w
  | Action.SdCardSelectFile => sd_card_select_file C key_value w
  | Action.PrintStop => print_stop w
  | Action.PrintPause => print_pause C w
  | Action.PrintResume => print_resume C w
  | Action.Preheat => preheat C key_value w
  | Action.Cooldown => cooldown w
  | Action.MotorsSettings => motors_or_pid_settings C key_value w
  | Action.SaveSettings => save_motors_or_pid_settings C w
  | Action.FactoryReset => factory_reset w
  | Action.PrintSettings => print_settings w
  | Action.SavePrintSettings => save_print_settings w
  | Action.LoadUnloadBack => load_unload_back w
  | Action.Level => level C key_value w
  | Action.Filament => filament C key_value w
  | Action.XPlus => move_x_plus w
  | Action.XMinus => move_x_minus w
  | Action.YPlus => move_y_plus w
  | Action.YMinus => move_y_minus w
  | Action.ZPlus => move_z_plus w
  | Action.ZMinus => move_z_minus w
  | Action.EPlus => move_e_plus w
  | Action.EMinus => move_e_minus w
  | Action.DisableMotors => disable_motors w
  | Action.HomeX => home_X w
  | Action.HomeY => home_y w
  | Action.HomeZ => home_z w
  | Action.HomeAll => home_all w
  | Action.Statistics => statistics C w
  | Action.PidTuning => pid_tuning C key_value w
  | Action.TemperatureGraph => temperature_graph C key_value w
  | Action.Print => print C w
  | Action.About => about C key_value w
  | Action.LcdUpdate => lcd_update_mode w

/-- The case label of the `switch` an action code selects: the first label with
this code, `none` for the `default` branch. -/
def select (C : Config) (action : Nat) : Option Action :=
  Action.all.find? (fun a => C.action_code a = action)

/-- Read a frame from the LCD and act accordingly. The `default` branch only
logs an error; the case `LcdUpdate` has no `break` and would fall into it, but
`lcd_update_mode` does not return. Each call of a handler is recorded in
`invoked`. -/
def read_lcd_serial (C : Config) (frame : Incoming) (w : World) : World :=
  match frame with
  | Incoming.NotAvailable => w
  | Incoming.Malformed => w
  | Incoming.Received _ action _ value =>
    let key_value : KeyValue := value % 65536
    match select C action with
    | some a => handler C a key_value (record_invoked a w)
    | none => w

/-- Read data from the LCD and act accordingly: one cycle of the control loop.
Nothing runs once the relay loop of `lcd_update_mode` has been entered. -/
def task (C : Config) (frame : Incoming) (w : World) : World :=
  if w.relay_mode then w
  else
    let w1 := read_lcd_serial C frame w
    if w1.relay_mode then w1
    else send_status_update (execute_background_task w1)

/-- A cycle of the control loop at clock value `now`. -/
def task_at (C : Config) (w : World) (input : Nat × Incoming) : World :=
  task C input.2 (set_millis (input.1 % 4294967296) w)

/-- A run of the control loop over a list of clock values and incoming frames. -/
def run (C : Config) (w : World) (inputs : List (Nat × Incoming)) : World :=
  inputs.foldl (task_at C) w

/-! ## A concrete configuration and a concrete state -/

/-- Codes of the actions used in the examples. -/
def sample_action_code (a : Action) : Nat := 0x0400 + Action.all.indexOf a

/-- A configuration used in the examples. -/
def sample_config : Config :=
  { Show := 0, Back := 1, Up := 2, Down := 3, Load := 1, PidSettings := 1,
    LevelStart := 0, LevelStep1 := 1, LevelStep2 := 2, LevelStep3 := 3, LevelStep4 := 4,
    LevelFinish := 5,
    action_code := sample_action_code,
    page_of_word := fun n => Page.Other n,
    chars_size := 26,
    PARK_HEAD_ON_PAUSE := false,
    PRINTCOUNTER := true,
    SHORT_BUILD_VERSION := "1.1.6",
    PID_dT := 1 }

/-- The controller after construction, in a printer at rest. -/
def sample_world : World :=
  { impl :=
      { last_file_index_ := 0, next_op_time_ := 0, next_update_time_ := 0,
        background_task_ := BackgroundTask.None, temp_graph_update_ := false,
        last_page_ := Page.None,
        presets_ := { slot0 := ⟨180, 50⟩, slot1 := ⟨200, 60⟩, slot2 := ⟨220, 70⟩ },
        adv_i3_pp_lcd_version_ := 0 },
    millis := 1000, tx := [], rx := [], queue := [], external := [], invoked := [],
    relay_mode := false, memory_fault := false,
    axis_homed_X := false, axis_homed_Y := false, axis_homed_Z := false,
    target_temperature := 0, current_temperature := 20,
    target_temperature_bed := 0, current_temperature_bed := 20,
    fanSpeeds := 0, feedrate_percentage := 100,
    steps_per_mm_X := 80, steps_per_mm_Y := 80, steps_per_mm_Z := 400, steps_per_mm_E := 96,
    Kp := 22, Ki := 1, Kd := 114,
    card_present := false, cardOK := false, sdprinting := false, card_files := [],
    card_filename := "", card_longFilename := "", card_requests := [], card_open := none,
    percentDone := 0, print_job_timer := Timer.Stopped,
    totalPrints := 0, finishedPrints := 0, printTime := 0, longestPrint := 0,
    filamentUsed := 0 }

/-- A state in which the leveling task waits for the homing, deadline passed. -/
def level_world : World :=
  { sample_world with
    impl := { sample_world.impl with
      background_task_ := BackgroundTask.LevelInit, next_op_time_ := 900 } }

/-- A state in which the filament is loaded, hotend at 195 for a target of 200,
deadline passed. -/
def load_world : World :=
  { sample_world with
    target_temperature := 200, current_temperature := 195,
    impl := { sample_world.impl with
      background_task_ := BackgroundTask.LoadFilament, next_op_time_ := 900 } }

/-- A state whose fan runs at the raw duty 128, with graph updates on. -/
def fan_world : World :=
  { sample_world with
    fanSpeeds := 128,
    impl := { sample_world.impl with temp_graph_update_ := true } }

/-- A state in which the panel answers a read request with six preset words. -/
def preheat_world : World :=
  { sample_world with rx := [some [190, 55, 210, 65, 230, 75]] }

/-- A state in which the panel does not answer the next read request, while
`last_page_` holds the page `Tools`. -/
def graph_world : World :=
  { sample_world with
    rx := [none],
    impl := { sample_world.impl with last_page_ := Page.Tools } }

/-- A state in which the panel answers a read request with the word 200. -/
def filament_world : World :=
  { sample_world with rx := [some [200]] }

/-! ## Persistent storage of the presets -/

/-- What the storage callbacks work on: the storage itself and the two
arguments passed by reference, `eeprom_index` and `working_crc`. -/
structure Eeprom (σ : Type) where
  storage : σ
  eeprom_index : Int
  working_crc : Nat

/-- Modelled from the spec: the type `eeprom_write` of the write callback,
`write(cursor, bytes, length, checksum)`. The callback is given the bytes
pointed to and their number. -/
abbrev eeprom_write (σ : Type) := Eeprom σ → List Nat → Nat → Eeprom σ

/-- Modelled from the spec: the type `eeprom_read` of the read callback,
`read(cursor, bytes, length, checksum)`. The callback is given the bytes the
destination holds and their number, and returns the bytes the destination
holds afterwards. -/
abbrev eeprom_read (σ : Type) := Eeprom σ → List Nat → Nat → Eeprom σ × List Nat

/-- The bytes of a `uint16_t` seen through `reinterpret_cast<uint8_t*>`, low
byte first. -/
def bytes_of_uint16 (v : Nat) : List Nat := [v % 256, v / 256 % 256]

/-- The `uint16_t` whose bytes are given, low byte first. -/
def uint16_of_bytes (bytes : List Nat) : Nat :=
  bytes.getD 0 0 % 256 + 256 * (bytes.getD 1 0 % 256)

/-- Value of `sizeof(preset.hotend)`. -/
def sizeof_uint16 : Nat := 2

/-- The body of the loop of `store_presets`. -/
def store_preset {σ : Type} (write : eeprom_write σ) (e : Eeprom σ) (preset : Preset) :
    Eeprom σ :=
  write (write e (bytes_of_uint16 preset.hotend) sizeof_uint16)
    (bytes_of_uint16 preset.bed) sizeof_uint16

/-- Store presets in permanent memory. -/
def store_presets {σ : Type} (write : eeprom_write σ) (e : Eeprom σ) (w : World) : Eeprom σ :=
  w.impl.presets_.toList.foldl (store_preset write) e

/-- The body of the loop of `restore_presets`. -/
def restore_preset {σ : Type} (read : eeprom_read σ) (e : Eeprom σ) (preset : Preset) :
    Eeprom σ × Preset :=
  let hotend := read e (bytes_of_uint16 preset.hotend) sizeof_uint16
  let bed := read hotend.1 (bytes_of_uint16 preset.bed) sizeof_uint16
  (bed.1, { hotend := uint16_of_bytes hotend.2, bed := uint16_of_bytes bed.2 })

/-- Restore presets from permanent memory. -/
def restore_presets {σ : Type} (read : eeprom_read σ) (e : Eeprom σ) (w : World) :
    Eeprom σ × World :=
  let r0 := restore_preset read e w.impl.presets_.slot0
  let r1 := restore_preset read r0.1 w.impl.presets_.slot1
  let r2 := restore_preset read r1.1 w.impl.presets_.slot2
  (r2.1, set_presets { slot0 := r0.2, slot1 := r1.2, slot2 := r2.2 } w)

/-- Modelled from the spec: a write callback that stores the bytes at the
cursor, advances the cursor and folds the bytes into the checksum with `crc`. -/
def memory_write (crc : Nat → Nat → Nat) : eeprom_write (Int → Nat) :=
  fun e value size =>
    { storage := fun address =>
        if e.eeprom_index ≤ address ∧ address < e.eeprom_index + size then
          value.getD (address - e.eeprom_index).toNat 0
        else e.storage address
      eeprom_index := e.eeprom_index + size
      working_crc := (value.take size).foldl crc e.working_crc }

/-- Modelled from the spec: a read callback that returns the bytes at the
cursor, advances the cursor and folds the bytes into the checksum with `crc`. -/
def memory_read (crc : Nat → Nat → Nat) : eeprom_read (Int → Nat) :=
  fun e _ size =>
    let bytes := (List.range size).map (fun i => e.storage (e.eeprom_index + i))
    ({ e with eeprom_index := e.eeprom_index + size
              working_crc := bytes.foldl crc e.working_crc }, bytes)

/-- Modelled from the spec: a read callback that does nothing. -/
def noop_read {σ : Type} : eeprom_read σ := fun e value _ => (e, value)

/-- A call of a storage callback: the cursor, the bytes and the length it is
given. -/
structure StorageCall where
  eeprom_index : Int
  value : List Nat
  size : Nat
  deriving DecidableEq, Repr

/-- A write callback that records its calls and advances the cursor. -/
def recording_write : eeprom_write (List StorageCall) :=
  fun e value size =>
    { e with
      storage := e.storage ++ [{ eeprom_index := e.eeprom_index, value := value, size := size }]
      eeprom_index := e.eeprom_index + size }

/-- A read callback that records its calls, advances the cursor and leaves the
destination as it is. -/
def recording_read : eeprom_read (List StorageCall) :=
  fun e value size =>
    ({ e with
       storage := e.storage ++ [{ eeprom_index := e.eeprom_index, value := value, size := size }]
       eeprom_index := e.eeprom_index + size }, value)

/-- The two bytes of `v` are in the storage at the address `p`. -/
def stored (m : Int → Nat) (p : Int) (v : Nat) : Prop :=
  m p = v % 256 ∧ m (p + 1) = v / 256 % 256

/-- Every preset of the array is a pair of `uint16_t` values. -/
def Presets.valid (p : Presets) : Prop :=
  p.slot0.hotend < 65536 ∧ p.slot0.bed < 65536 ∧ p.slot1.hotend < 65536
    ∧ p.slot1.bed < 65536 ∧ p.slot2.hotend < 65536 ∧ p.slot2.bed < 65536

instance (p : Presets) : Decidable p.valid := by
  unfold Presets.valid
  infer_instance

/-- An empty storage with the cursor at 100. -/
def sample_eeprom : Eeprom (Int → Nat) :=
  { storage := fun _ => 0, eeprom_index := 100, working_crc := 0 }

/-! ## More concrete states -/

/-- A frame that does not reach `temperature_graph`. -/
def not_temperature_graph (C : Config) (frame : Incoming) : Prop :=
  ∀ command action nb_words value, frame = Incoming.Received command action nb_words value →
    select C action ≠ some Action.TemperatureGraph

/-- A state in which the panel answers a read request with the four words of
the print settings, the fan at 100 percent. -/
def print_settings_world : World :=
  { sample_world with rx := [some [100, 200, 60, 100]] }

/-- A state in which the panel answers the read of `PictureID` with page 7. -/
def page_world : World :=
  { sample_world with rx := [some [0, 7]] }

/-- Two cycles that do not reach `temperature_graph`: the action `HomeAll` and
a cycle without a frame. -/
def page_inputs : List (Nat × Incoming) :=
  [(1100, Incoming.Received 0x83 0x041B 1 0), (1700, Incoming.NotAvailable)]

/-- A state with a card that holds one file. -/
def one_file_world : World :=
  { sample_world with
    card_present := true
    card_files := [{ filename := "CUBE~1.GCO", longFilename := "cube.gcode" }] }

/-- A state with a card that holds six files. -/
def six_files_world : World :=
  { sample_world with
    card_present := true
    card_files :=
      [{ filename := "A.GCO", longFilename := "a.gcode" },
       { filename := "B.GCO", longFilename := "b.gcode" },
       { filename := "C.GCO", longFilename := "c.gcode" },
       { filename := "D.GCO", longFilename := "d.gcode" },
       { filename := "E.GCO", longFilename := "e.gcode" },
       { filename := "F.GCO", longFilename := "f.gcode" }] }

/-- The state with six files once the card is found usable and the list of the
files is shown from the last file, index 5. -/
def listed_world : World :=
  { six_files_world with
    cardOK := true
    impl := { six_files_world.impl with last_file_index_ := 5 } }

/-- A state in which 123456 millimetres of filament have been used. -/
def stats_world : World :=
  { sample_world with filamentUsed := 123456 }

/-- A state whose clock has wrapped: the step deadline was set 200 units after
the clock value `4294967200`, and the clock shows 250 units after it. -/
def wrapped_world : World :=
  { sample_world with
    millis := 154
    impl := { sample_world.impl with
      next_op_time_ := 104, next_update_time_ := 104,
      background_task_ := BackgroundTask.LoadFilament } }

/-- A state whose hotend target is 230 degrees. -/
def hot_world : World :=
  { sample_world with target_temperature := 230 }

/-- A state with a card that holds no file. The name buffers of the card reader
still hold the names left by an earlier listing, `OLD.GCO` and `old.gcode`. -/
def empty_card_world : World :=
  { sample_world with
    card_present := true, card_filename := "OLD.GCO", card_longFilename := "old.gcode" }

/-! ## Basic facts -/

theorem toInt16_of_small (x : Int) (h0 : 0 ≤ x) (h1 : x < 32768) : toInt16 x = x := by
  unfold toInt16; omega

theorem scale_of_nat (a b c : Nat) (ha : a < 32768) (hb : b < 32768) (hc : c < 32768)
    (hac : a * c < 32768) : scale a b c = ((a * c / b : Nat) : Int) := by
  unfold scale
  have hq : a * c / b < 32768 := lt_of_le_of_lt (Nat.div_le_self _ _) hac
  rw [toInt16_of_small a (by omega) (by omega), toInt16_of_small c (by omega) (by omega),
    toInt16_of_small b (by omega) (by omega)]
  rw [toInt16_of_small ((a : Int) * c) (by positivity) (by exact_mod_cast hac)]
  rw [show ((a : Int) * c) = ((a * c : Nat) : Int) by push_cast; rfl]
  rw [← Int.ofNat_tdiv]
  exact toInt16_of_small _ (by positivity) (by exact_mod_cast hq)

theorem scale_to_percent (v : Nat) (hv : v ≤ 255) :
    scale v 256 100 = ((v * 100 / 256 : Nat) : Int) := by
  have h := scale_of_nat v 256 100 (by omega) (by omega) (by omega) (by omega)
  exact_mod_cast h

theorem scale_from_percent (p : Nat) (hp : p ≤ 100) :
    scale p 100 256 = ((p * 256 / 100 : Nat) : Int) := by
  have h := scale_of_nat p 100 256 (by omega) (by omega) (by omega) (by omega)
  exact_mod_cast h

theorem ELAPSED_eq_not_PENDING (now soon : Nat) : ELAPSED now soon = !PENDING now soon := rfl

theorem PENDING_before_deadline (now delta e : Nat) (hd : delta ≤ 500) (he : e < delta) :
    PENDING (millis_add now e) (millis_add now delta) = true := by
  unfold PENDING millis_add
  simp only [decide_eq_true_eq]
  omega

/-! ## What the building blocks leave alone -/

@[simp] theorem send_impl (f : Frame) (w : World) :
    (send f w).impl = w.impl := rfl

@[simp] theorem send_invoked (f : Frame) (w : World) :
    (send f w).invoked = w.invoked := rfl

@[simp] theorem show_page_impl (p : Page) (w : World) :
    (show_page p w).impl = w.impl := rfl

@[simp] theorem show_page_invoked (p : Page) (w : World) :
    (show_page p w).invoked = w.invoked := rfl

@[simp] theorem enqueue_and_echo_command_impl (s : String) (w : World) :
    (enqueue_and_echo_command s w).impl = w.impl := rfl

@[simp] theorem enqueue_and_echo_command_invoked (s : String) (w : World) :
    (enqueue_and_echo_command s w).invoked = w.invoked := rfl

@[simp] theorem enqueue_and_echo_commands_P_impl (s : String) (w : World) :
    (enqueue_and_echo_commands_P s w).impl = w.impl := rfl

@[simp] theorem enqueue_and_echo_commands_P_invoked (s : String) (w : World) :
    (enqueue_and_echo_commands_P s w).invoked = w.invoked := rfl

@[simp] theorem clear_command_queue_impl (w : World) :
    (clear_command_queue w).impl = w.impl := rfl

@[simp] theorem clear_command_queue_invoked (w : World) :
    (clear_command_queue w).invoked = w.invoked := rfl

@[simp] theorem call_external_impl (s : String) (w : World) :
    (call_external s w).impl = w.impl := rfl

@[simp] theorem call_external_invoked (s : String) (w : World) :
    (call_external s w).invoked = w.invoked := rfl

@[simp] theorem setTargetHotend_impl (t : Int) (w : World) :
    (setTargetHotend t w).impl = w.impl := rfl

@[simp] theorem setTargetHotend_invoked (t : Int) (w : World) :
    (setTargetHotend t w).invoked = w.invoked := rfl

@[simp] theorem setTargetBed_impl (t : Int) (w : World) :
    (setTargetBed t w).impl = w.impl := rfl

@[simp] theorem setTargetBed_invoked (t : Int) (w : World) :
    (setTargetBed t w).invoked = w.invoked := rfl

@[simp] theorem disable_all_heaters_impl (w : World) :
    (disable_all_heaters w).impl = w.impl := rfl

@[simp] theorem disable_all_heaters_invoked (w : World) :
    (disable_all_heaters w).invoked = w.invoked := rfl

@[simp] theorem initsd_impl (w : World) :
    (initsd w).impl = w.impl := rfl

@[simp] theorem initsd_invoked (w : World) :
    (initsd w).invoked = w.invoked := rfl

@[simp] theorem openFile_impl (s : String) (w : World) :
    (openFile s w).impl = w.impl := rfl

@[simp] theorem openFile_invoked (s : String) (w : World) :
    (openFile s w).invoked = w.invoked := rfl

@[simp] theorem stopSDPrint_impl (w : World) :
    (stopSDPrint w).impl = w.impl := rfl

@[simp] theorem stopSDPrint_invoked (w : World) :
    (stopSDPrint w).invoked = w.invoked := rfl

@[simp] theorem pauseSDPrint_impl (w : World) :
    (pauseSDPrint w).impl = w.impl := rfl

@[simp] theorem pauseSDPrint_invoked (w : World) :
    (pauseSDPrint w).invoked = w.invoked := rfl

@[simp] theorem set_timer_impl (tm : Timer) (w : World) :
    (set_timer tm w).impl = w.impl := rfl

@[simp] theorem set_timer_invoked (tm : Timer) (w : World) :
    (set_timer tm w).invoked = w.invoked := rfl

@[simp] theorem set_axis_homed_impl (b : Bool) (w : World) :
    (set_axis_homed b w).impl = w.impl := rfl

@[simp] theorem set_axis_homed_invoked (b : Bool) (w : World) :
    (set_axis_homed b w).invoked = w.invoked := rfl

@[simp] theorem set_fanSpeeds_impl (t : Int) (w : World) :
    (set_fanSpeeds t w).impl = w.impl := rfl

@[simp] theorem set_fanSpeeds_invoked (t : Int) (w : World) :
    (set_fanSpeeds t w).invoked = w.invoked := rfl

@[simp] theorem set_feedrate_percentage_impl (t : Int) (w : World) :
    (set_feedrate_percentage t w).impl = w.impl := rfl

@[simp] theorem set_feedrate_percentage_invoked (t : Int) (w : World) :
    (set_feedrate_percentage t w).invoked = w.invoked := rfl

@[simp] theorem set_motors_and_pid_impl (x y z e p i d : ℚ) (w : World) :
    (set_motors_and_pid x y z e p i d w).impl = w.impl := rfl

@[simp] theorem set_motors_and_pid_invoked (x y z e p i d : ℚ) (w : World) :
    (set_motors_and_pid x y z e p i d w).invoked = w.invoked := rfl

@[simp] theorem raise_memory_fault_impl (w : World) :
    (raise_memory_fault w).impl = w.impl := rfl

@[simp] theorem raise_memory_fault_invoked (w : World) :
    (raise_memory_fault w).invoked = w.invoked := rfl

@[simp] theorem enter_relay_mode_impl (w : World) :
    (enter_relay_mode w).impl = w.impl := rfl

@[simp] theorem enter_relay_mode_invoked (w : World) :
    (enter_relay_mode w).invoked = w.invoked := rfl

@[simp] theorem set_millis_impl (n : Nat) (w : World) :
    (set_millis n w).impl = w.impl := rfl

@[simp] theorem set_millis_invoked (n : Nat) (w : World) :
    (set_millis n w).invoked = w.invoked := rfl

@[simp] theorem consume_answer_impl (w : World) :
    (consume_answer w).impl = w.impl := rfl

@[simp] theorem consume_answer_invoked (w : World) :
    (consume_answer w).invoked = w.invoked := rfl

@[simp] theorem record_invoked_impl (a : Action) (w : World) :
    (record_invoked a w).impl = w.impl := rfl

@[simp] theorem set_temp_graph_update_impl_background_task_ (b : Bool) (w : World) :
    (set_temp_graph_update b w).impl.background_task_ = w.impl.background_task_ := rfl

@[simp] theorem set_temp_graph_update_invoked (b : Bool) (w : World) :
    (set_temp_graph_update b w).invoked = w.invoked := rfl

@[simp] theorem set_last_file_index_impl_background_task_ (n : Nat) (w : World) :
    (set_last_file_index n w).impl.background_task_ = w.impl.background_task_ := rfl

@[simp] theorem set_last_file_index_invoked (n : Nat) (w : World) :
    (set_last_file_index n w).invoked = w.invoked := rfl

@[simp] theorem set_last_page_impl_background_task_ (p : Page) (w : World) :
    (set_last_page p w).impl.background_task_ = w.impl.background_task_ := rfl

@[simp] theorem set_last_page_invoked (p : Page) (w : World) :
    (set_last_page p w).invoked = w.invoked := rfl

@[simp] theorem set_presets_impl_background_task_ (ps : Presets) (w : World) :
    (set_presets ps w).impl.background_task_ = w.impl.background_task_ := rfl

@[simp] theorem set_presets_invoked (ps : Presets) (w : World) :
    (set_presets ps w).invoked = w.invoked := rfl

@[simp] theorem set_next_op_time_impl_background_task_ (n : Nat) (w : World) :
    (set_next_op_time n w).impl.background_task_ = w.impl.background_task_ := rfl

@[simp] theorem set_next_op_time_invoked (n : Nat) (w : World) :
    (set_next_op_time n w).invoked = w.invoked := rfl

@[simp] theorem set_next_update_time_to_impl_background_task_ (n : Nat) (w : World) :
    (set_next_update_time_to n w).impl.background_task_ = w.impl.background_task_ := rfl

@[simp] theorem set_next_update_time_to_invoked (n : Nat) (w : World) :
    (set_next_update_time_to n w).invoked = w.invoked := rfl

@[simp] theorem set_lcd_version_impl_background_task_ (n : Nat) (w : World) :
    (set_lcd_version n w).impl.background_task_ = w.impl.background_task_ := rfl

@[simp] theorem set_lcd_version_invoked (n : Nat) (w : World) :
    (set_lcd_version n w).invoked = w.invoked := rfl

@[simp] theorem set_background_task_impl_background_task_ (t : BackgroundTask) (w : World) :
    (set_background_task t w).impl.background_task_ = t := rfl

@[simp] theorem set_background_task_invoked (t : BackgroundTask) (w : World) :
    (set_background_task t w).invoked = w.invoked := rfl

@[simp] theorem receive_snd (n : Nat) (w : World) : (receive n w).2 = consume_answer w := by
  unfold receive
  split
  · split <;> rfl
  · rfl

theorem receive_of_answer (n : Nat) (w : World) (values : List Nat)
    (rest : List (Option (List Nat)))
    (hrx : w.rx = some values :: rest) (hlen : values.length = n) :
    (receive n w).1 = some values := by
  unfold receive
  simp [hrx, hlen]

theorem receive_of_failure (n : Nat) (w : World) (rest : List (Option (List Nat)))
    (hrx : w.rx = [] ∨ w.rx = none :: rest) : (receive n w).1 = none := by
  unfold receive
  rcases hrx with h | h <;> simp [h]

@[simp] theorem getfilename_impl (nr : Nat) (w : World) :
    (getfilename nr w).impl = w.impl := by
  unfold getfilename; split <;> rfl

@[simp] theorem startFileprint_impl (w : World) :
    (startFileprint w).impl = w.impl := by
  unfold startFileprint; split <;> rfl

@[simp] theorem get_file_names_impl (C : Config) (l : List Nat) (w : World) :
    (get_file_names C l w).2.impl = w.impl := by
  induction l generalizing w with
  | nil => rfl
  | cons i rest ih => simp [get_file_names, ih, get_file_name]

@[simp] theorem get_current_page_impl (C : Config) (w : World) :
    (get_current_page C w).2.impl = w.impl := by
  unfold get_current_page; simp only []; split <;> simp

@[simp] theorem get_lcd_firmware_version_impl (w : World) :
    (get_lcd_firmware_version w).2.impl = w.impl := by
  unfold get_lcd_firmware_version; simp only []; split <;> simp

@[simp] theorem send_versions_impl (C : Config) (w : World) :
    (send_versions C w).impl = w.impl := by
  simp [send_versions]

@[simp] theorem send_stats_impl (C : Config) (w : World) :
    (send_stats C w).impl = w.impl := by
  unfold send_stats; simp only []; split <;> simp

@[simp] theorem getfilename_invoked (nr : Nat) (w : World) :
    (getfilename nr w).invoked = w.invoked := by
  unfold getfilename; split <;> rfl

@[simp] theorem startFileprint_invoked (w : World) :
    (startFileprint w).invoked = w.invoked := by
  unfold startFileprint; split <;> rfl

@[simp] theorem get_file_names_invoked (C : Config) (l : List Nat) (w : World) :
    (get_file_names C l w).2.invoked = w.invoked := by
  induction l generalizing w with
  | nil => rfl
  | cons i rest ih => simp [get_file_names, ih, get_file_name]

@[simp] theorem get_current_page_invoked (C : Config) (w : World) :
    (get_current_page C w).2.invoked = w.invoked := by
  unfold get_current_page; simp only []; split <;> simp

@[simp] theorem get_lcd_firmware_version_invoked (w : World) :
    (get_lcd_firmware_version w).2.invoked = w.invoked := by
  unfold get_lcd_firmware_version; simp only []; split <;> simp

@[simp] theorem send_versions_invoked (C : Config) (w : World) :
    (send_versions C w).invoked = w.invoked := by
  simp [send_versions]

@[simp] theorem send_stats_invoked (C : Config) (w : World) :
    (send_stats C w).invoked = w.invoked := by
  unfold send_stats; simp only []; split <;> simp

@[simp] theorem sd_card_scroll_invoked (C : Config) (k : KeyValue) (w : World) :
    (sd_card_scroll C k w).invoked = w.invoked := by
  unfold sd_card_scroll; simp only []; split_ifs <;> simp

@[simp] theorem sd_card_scroll_task (C : Config) (k : KeyValue) (w : World) :
    (sd_card_scroll C k w).impl.background_task_ = w.impl.background_task_ := by
  unfold sd_card_scroll; simp only []; split_ifs <;> simp

@[simp] theorem sd_card_list_invoked (C : Config) (k : KeyValue) (w : World) :
    (sd_card_list C k w).invoked = w.invoked := by
  unfold sd_card_list; simp only []; split_ifs <;> simp

@[simp] theorem sd_card_list_task (C : Config) (k : KeyValue) (w : World) :
    (sd_card_list C k w).impl.background_task_ = w.impl.background_task_ := by
  unfold sd_card_list; simp only []; split_ifs <;> simp

@[simp] theorem preheat_invoked (C : Config) (k : KeyValue) (w : World) :
    (preheat C k w).invoked = w.invoked := by
  unfold preheat
  split
  · simp
  · dsimp only
    split
    · simp
    · split
      · simp
      · split <;> simp

@[simp] theorem preheat_task (C : Config) (k : KeyValue) (w : World) :
    (preheat C k w).impl.background_task_ = w.impl.background_task_ := by
  unfold preheat
  split
  · simp
  · dsimp only
    split
    · simp
    · split
      · simp
      · split <;> simp

/-- No handler touches the record of the calls. -/
theorem handler_invoked (C : Config) (a : Action) (k : KeyValue) (w : World) :
    (handler C a k w).invoked = w.invoked := by
  cases a
  case Preheat => exact preheat_invoked C k w
  all_goals
    simp only [handler, sd_card, sd_card_select_file, print_stop, print_pause, print_resume,
      cooldown, motors_or_pid_settings, save_motors_or_pid_settings, factory_reset,
      print_settings, save_print_settings, load_unload_back, level, level_step, filament, move,
      move_x_plus, move_x_minus, move_y_plus, move_y_minus, move_z_plus, move_z_minus,
      move_e_plus, move_e_minus, disable_motors, home_X, home_y, home_z, home_all, statistics,
      pid_tuning, temperature_graph, print, lcd_update_mode, about]
    (repeat' split) <;> simp

/-- Apart from `level`, `filament` and `load_unload_back`, no handler assigns
the background task. -/
theorem handler_task (C : Config) (a : Action) (k : KeyValue) (w : World)
    (h1 : a ≠ Action.Level) (h2 : a ≠ Action.Filament) (h3 : a ≠ Action.LoadUnloadBack) :
    (handler C a k w).impl.background_task_ = w.impl.background_task_ := by
  cases a
  case Level => exact absurd rfl h1
  case Filament => exact absurd rfl h2
  case LoadUnloadBack => exact absurd rfl h3
  case Preheat => exact preheat_task C k w
  all_goals
    simp only [handler, sd_card, sd_card_select_file, print_stop, print_pause, print_resume,
      cooldown, motors_or_pid_settings, save_motors_or_pid_settings, factory_reset,
      print_settings, save_print_settings, level_step, move,
      move_x_plus, move_x_minus, move_y_plus, move_y_minus, move_z_plus, move_z_minus,
      move_e_plus, move_e_minus, disable_motors, home_X, home_y, home_z, home_all, statistics,
      pid_tuning, temperature_graph, print, lcd_update_mode, about]
    (repeat' split) <;> simp

/-! ## Scheduler -/

/-- C1: a `LevelInit` step whose deadline has elapsed. If one of the axes X, Y,
Z is not homed, the step only re-arms the deadline at `millis() + 200` (sum of
`millis_t` values): no frame is sent, so no page is requested, and the task is
still `LevelInit`. If the three axes are homed the step sends exactly the frame
that requests the page `Leveling` and sets the task to `None`. -/
theorem execute_background_task_LevelInit (w : World)
    (htask : w.impl.background_task_ = BackgroundTask.LevelInit)
    (hdue : ELAPSED w.millis w.impl.next_op_time_ = true) :
    ((w.axis_homed_X && w.axis_homed_Y && w.axis_homed_Z) = false →
      execute_background_task w = set_next_op_time ((w.millis + 200) % 4294967296) w
      ∧ (execute_background_task w).tx = w.tx
      ∧ (execute_background_task w).impl.background_task_ = BackgroundTask.LevelInit
      ∧ (execute_background_task w).impl.next_op_time_ = (w.millis + 200) % 4294967296)
    ∧ ((w.axis_homed_X && w.axis_homed_Y && w.axis_homed_Z) = true →
      execute_background_task w =
        show_page Page.Leveling (set_background_task BackgroundTask.None w)
      ∧ (execute_background_task w).tx =
        w.tx ++ [Frame.WriteRegisterDataRequest Register.PictureID
          [Field.u8 0, Field.page Page.Leveling]]
      ∧ (execute_background_task w).impl.background_task_ = BackgroundTask.None) := by
  constructor
  · intro h
    have e : execute_background_task w = set_next_op_time ((w.millis + 200) % 4294967296) w := by
      simp [execute_background_task, hdue, htask, leveling_init, h,
        set_next_background_task_time, millis_add]
    rw [e]
    exact ⟨rfl, rfl, htask, rfl⟩
  · intro h
    have e : execute_background_task w =
        show_page Page.Leveling (set_background_task BackgroundTask.None w) := by
      simp [execute_background_task, hdue, htask, leveling_init, h]
    rw [e]
    exact ⟨rfl, rfl, rfl⟩

/-- C1 at a concrete state: task `LevelInit`, clock 1000, deadline 900, no axis
homed. The deadline becomes 1200. -/
theorem execute_background_task_LevelInit_witness :
    level_world.impl.background_task_ = BackgroundTask.LevelInit
    ∧ ELAPSED level_world.millis level_world.impl.next_op_time_ = true
    ∧ (execute_background_task level_world).tx = []
    ∧ (execute_background_task level_world).impl.background_task_ = BackgroundTask.LevelInit
    ∧ (execute_background_task level_world).impl.next_op_time_ = 1200 :=
  ⟨rfl, by decide,
    ((execute_background_task_LevelInit level_world rfl (by decide)).1 (by decide)).2.1,
    ((execute_background_task_LevelInit level_world rfl (by decide)).1 (by decide)).2.2.1,
    ((execute_background_task_LevelInit level_world rfl (by decide)).1 (by decide)).2.2.2⟩

/-- C9: a `LoadFilament` (respectively `UnloadFilament`) step whose deadline
has elapsed. When the measured hotend temperature is within 10 degrees of the
target the step enqueues exactly the move `G1 E1 F120` (respectively
`G1 E-1 F120`); when it is more than 10 degrees below the target the queue is
left as it is. In both cases nothing else changes but the deadline, which
becomes `millis() + 500` (sum of `millis_t` values): the task is the same. -/
theorem execute_background_task_filament (w : World)
    (hdue : ELAPSED w.millis w.impl.next_op_time_ = true) :
    (w.impl.background_task_ = BackgroundTask.LoadFilament →
      (|w.current_temperature - w.target_temperature| ≤ 10 →
        execute_background_task w =
          set_next_op_time ((w.millis + 500) % 4294967296)
            (enqueue_and_echo_commands_P "G1 E1 F120" w)
        ∧ (execute_background_task w).queue = w.queue ++ ["G1 E1 F120"])
      ∧ (w.current_temperature < w.target_temperature - 10 →
        execute_background_task w = set_next_op_time ((w.millis + 500) % 4294967296) w
        ∧ (execute_background_task w).queue = w.queue)
      ∧ (execute_background_task w).impl.background_task_ = BackgroundTask.LoadFilament
      ∧ (execute_background_task w).impl.next_op_time_ = (w.millis + 500) % 4294967296)
    ∧ (w.impl.background_task_ = BackgroundTask.UnloadFilament →
      (|w.current_temperature - w.target_temperature| ≤ 10 →
        execute_background_task w =
          set_next_op_time ((w.millis + 500) % 4294967296)
            (enqueue_and_echo_commands_P "G1 E-1 F120" w)
        ∧ (execute_background_task w).queue = w.queue ++ ["G1 E-1 F120"])
      ∧ (w.current_temperature < w.target_temperature - 10 →
        execute_background_task w = set_next_op_time ((w.millis + 500) % 4294967296) w
        ∧ (execute_background_task w).queue = w.queue)
      ∧ (execute_background_task w).impl.background_task_ = BackgroundTask.UnloadFilament
      ∧ (execute_background_task w).impl.next_op_time_ = (w.millis + 500) % 4294967296) := by
  have hnear : |w.current_temperature - w.target_temperature| ≤ 10 →
      (w.target_temperature : ℚ) - 10 ≤ w.current_temperature := by
    intro h
    have := (abs_le.mp h).1
    linarith
  have hfar : w.current_temperature < w.target_temperature - 10 →
      ¬ ((w.target_temperature : ℚ) - 10 ≤ w.current_temperature) := by
    intro h
    exact not_le.mpr h
  refine ⟨fun htask => ⟨?_, ?_, ?_, ?_⟩, fun htask => ⟨?_, ?_, ?_, ?_⟩⟩
  · intro h
    have e : execute_background_task w =
        set_next_op_time ((w.millis + 500) % 4294967296)
          (enqueue_and_echo_commands_P "G1 E1 F120" w) := by
      simp [execute_background_task, hdue, htask, load_filament, hnear h,
        set_next_background_task_time, enqueue_and_echo_commands_P, millis_add]
    rw [e]; exact ⟨rfl, rfl⟩
  · intro h
    have e : execute_background_task w =
        set_next_op_time ((w.millis + 500) % 4294967296) w := by
      simp [execute_background_task, hdue, htask, load_filament, hfar h,
        set_next_background_task_time, millis_add]
    rw [e]; exact ⟨rfl, by simp [set_next_op_time, modify_impl]⟩
  · by_cases hc : (w.target_temperature : ℚ) - 10 ≤ w.current_temperature <;>
      simp [execute_background_task, hdue, htask, load_filament, hc, set_next_background_task_time,
        set_next_op_time, modify_impl, enqueue_and_echo_commands_P]
  · by_cases hc : (w.target_temperature : ℚ) - 10 ≤ w.current_temperature <;>
      simp [execute_background_task, hdue, htask, load_filament, hc, set_next_background_task_time,
        set_next_op_time, modify_impl, enqueue_and_echo_commands_P, millis_add]
  · intro h
    have e : execute_background_task w =
        set_next_op_time ((w.millis + 500) % 4294967296)
          (enqueue_and_echo_commands_P "G1 E-1 F120" w) := by
      simp [execute_background_task, hdue, htask, unload_filament, hnear h,
        set_next_background_task_time, enqueue_and_echo_commands_P, millis_add]
    rw [e]; exact ⟨rfl, rfl⟩
  · intro h
    have e : execute_background_task w =
        set_next_op_time ((w.millis + 500) % 4294967296) w := by
      simp [execute_background_task, hdue, htask, unload_filament, hfar h,
        set_next_background_task_time, millis_add]
    rw [e]; exact ⟨rfl, by simp [set_next_op_time, modify_impl]⟩
  · by_cases hc : (w.target_temperature : ℚ) - 10 ≤ w.current_temperature <;>
      simp [execute_background_task, hdue, htask, unload_filament, hc, set_next_background_task_time,
        set_next_op_time, modify_impl, enqueue_and_echo_commands_P]
  · by_cases hc : (w.target_temperature : ℚ) - 10 ≤ w.current_temperature <;>
      simp [execute_background_task, hdue, htask, unload_filament, hc, set_next_background_task_time,
        set_next_op_time, modify_impl, enqueue_and_echo_commands_P, millis_add]

/-- C9 at a concrete state: task `LoadFilament`, clock 1000, deadline 900,
hotend at 195 for a target of 200. One move is enqueued and the deadline
becomes 1500. -/
theorem execute_background_task_filament_witness :
    ELAPSED load_world.millis load_world.impl.next_op_time_ = true
    ∧ (execute_background_task load_world).queue = ["G1 E1 F120"]
    ∧ (execute_background_task load_world).impl.background_task_ = BackgroundTask.LoadFilament
    ∧ (execute_background_task load_world).impl.next_op_time_ = 1500 :=
  ⟨by decide,
    (((execute_background_task_filament load_world (by decide)).1 rfl).1
      (by norm_num [load_world])).2,
    ((execute_background_task_filament load_world (by decide)).1 rfl).2.2.1,
    ((execute_background_task_filament load_world (by decide)).1 rfl).2.2.2⟩

/-! ## Status publisher -/

theorem send_status_update_idle (w : World)
    (h : ELAPSED w.millis w.impl.next_update_time_ = false) : send_status_update w = w := by
  simp [send_status_update, h]

theorem send_status_update_fires (w : World)
    (h : ELAPSED w.millis w.impl.next_update_time_ = true) :
    send_status_update w =
      if w.impl.temp_graph_update_ then
        update_graph_data
          (send (status_frame w) (set_next_update_time_to ((w.millis + 500) % 4294967296) w))
      else send (status_frame w) (set_next_update_time_to ((w.millis + 500) % 4294967296) w) := by
  cases hg : w.impl.temp_graph_update_ <;>
    simp [send_status_update, h, hg, set_next_update_time, millis_add, send,
      update_graph_data, set_next_update_time_to, modify_impl, status_frame]

theorem send_status_update_tx (w : World)
    (h : ELAPSED w.millis w.impl.next_update_time_ = true) :
    (send_status_update w).tx =
      w.tx ++ status_frame w ::
        (if w.impl.temp_graph_update_ then
          [Frame.WriteCurveDataRequest 3
            [Uint16f w.current_temperature_bed, Uint16f w.current_temperature]]
        else []) := by
  rw [send_status_update_fires w h]
  cases w.impl.temp_graph_update_ <;>
    simp [update_graph_data, send, set_next_update_time_to, modify_impl]

theorem send_status_update_next (w : World)
    (h : ELAPSED w.millis w.impl.next_update_time_ = true) :
    (send_status_update w).impl.next_update_time_ = (w.millis + 500) % 4294967296 := by
  rw [send_status_update_fires w h]
  cases w.impl.temp_graph_update_ <;> rfl

/-- C6: before the deadline `send_status_update` sends nothing and changes
nothing. At or past the deadline it sends the status frame, once, followed by a
curve frame only when graph updates are on, and sets the deadline to
`millis() + 500` (sum of `millis_t` values); a further call at any clock value
less than 500 after the firing one sends nothing and changes nothing. This
holds for every state, so however late the firing call is. -/
theorem send_status_update_deadline (w : World) :
    (ELAPSED w.millis w.impl.next_update_time_ = false → send_status_update w = w)
    ∧ (ELAPSED w.millis w.impl.next_update_time_ = true →
      (send_status_update w).tx =
        w.tx ++ status_frame w ::
          (if w.impl.temp_graph_update_ then
            [Frame.WriteCurveDataRequest 3
              [Uint16f w.current_temperature_bed, Uint16f w.current_temperature]]
          else [])
      ∧ (send_status_update w).impl.next_update_time_ = (w.millis + 500) % 4294967296
      ∧ ∀ e, e < 500 →
        send_status_update (set_millis ((w.millis + e) % 4294967296) (send_status_update w)) =
          set_millis ((w.millis + e) % 4294967296) (send_status_update w)) := by
  refine ⟨send_status_update_idle w, fun h => ?_⟩
  refine ⟨send_status_update_tx w h, send_status_update_next w h, ?_⟩
  intro e he
  have hp := PENDING_before_deadline w.millis 500 e (le_refl _) he
  have : ELAPSED (millis_add w.millis e) (send_status_update w).impl.next_update_time_
      = false := by
    rw [send_status_update_next w h, ELAPSED_eq_not_PENDING]
    unfold millis_add at hp
    unfold millis_add
    rw [hp]; rfl
  exact send_status_update_idle _ this

/-- C6 at a concrete state: clock 1000, deadline 0, graph updates off. One
frame is sent, the deadline becomes 1500 and a call at clock 1499 is idle. -/
theorem send_status_update_deadline_witness :
    ELAPSED sample_world.millis sample_world.impl.next_update_time_ = true
    ∧ (send_status_update sample_world).tx = [status_frame sample_world]
    ∧ (send_status_update sample_world).impl.next_update_time_ = 1500
    ∧ send_status_update (set_millis 1499 (send_status_update sample_world)) =
        set_millis 1499 (send_status_update sample_world) :=
  ⟨by decide,
    ((send_status_update_deadline sample_world).2 (by decide)).1,
    ((send_status_update_deadline sample_world).2 (by decide)).2.1,
    ((send_status_update_deadline sample_world).2 (by decide)).2.2 499 (by decide)⟩

/-- C3: when `send_status_update` fires with a raw fan duty `v` in 0..255, the
frame it sends is the write of `TargetBed` with six fields, the fifth of which,
the fan, is `scale(v, 256, 100) = v * 100 / 256` truncated. -/
theorem send_status_update_fan (w : World) (v : Nat) (hv : v ≤ 255)
    (hfan : w.fanSpeeds = v)
    (hdue : ELAPSED w.millis w.impl.next_update_time_ = true) :
    scale w.fanSpeeds 256 100 = ((v * 100 / 256 : Nat) : Int)
    ∧ ∃ payload rest,
      (send_status_update w).tx =
        w.tx ++ Frame.WriteRamDataRequest Variable.TargetBed payload :: rest
      ∧ payload.length = 6
      ∧ payload[4]? = some (Field.u16 (v * 100 / 256)) := by
  have hs : scale w.fanSpeeds 256 100 = ((v * 100 / 256 : Nat) : Int) := by
    rw [hfan]; exact scale_to_percent v hv
  refine ⟨hs, _, _, send_status_update_tx w hdue, rfl, ?_⟩
  have hlt : v * 100 / 256 < 65536 := by omega
  have hu : toUint16 ((v * 100 / 256 : Nat) : Int) = v * 100 / 256 := by
    unfold toUint16
    omega
  simp only [hs, Uint16, hu]
  rfl

/-- C3 at the raw duty 128: the fan field of the status frame is 50. -/
theorem send_status_update_fan_witness :
    fan_world.fanSpeeds = 128
    ∧ ELAPSED fan_world.millis fan_world.impl.next_update_time_ = true
    ∧ scale fan_world.fanSpeeds 256 100 = 50
    ∧ ∃ payload rest,
      (send_status_update fan_world).tx =
        fan_world.tx ++ Frame.WriteRamDataRequest Variable.TargetBed payload :: rest
      ∧ payload.length = 6
      ∧ payload[4]? = some (Field.u16 50) :=
  ⟨rfl, by decide,
    (send_status_update_fan fan_world 128 (by decide) rfl (by decide)).1,
    (send_status_update_fan fan_world 128 (by decide) rfl (by decide)).2⟩

/-- C4, as stated, fails: the raw duty 2 is published as 0 percent, and 0
percent is saved as the raw duty 0, two units away from 2. -/
theorem scale_round_trip_not_within_one :
    ¬ ∀ v : Int, 0 ≤ v → v ≤ 255 → |scale (scale v 256 100) 100 256 - v| ≤ 1 := by
  intro h
  have h2 := h 2 (by decide) (by decide)
  revert h2
  decide

/-- C4, amended: for every raw fan duty `v` in 0..255, rescaling to a
percentage with `scale(v, 256, 100)` and back with `scale(p, 100, 256)` yields a
value that never exceeds `v` and is at most 3 below it. -/
theorem scale_round_trip_within_three (v : Int) (h0 : 0 ≤ v) (h1 : v ≤ 255) :
    scale (scale v 256 100) 100 256 ≤ v ∧ v - scale (scale v 256 100) 100 256 ≤ 3 := by
  obtain ⟨n, rfl⟩ := Int.eq_ofNat_of_zero_le h0
  have hn : n ≤ 255 := by exact_mod_cast h1
  rw [scale_to_percent n hn, scale_from_percent (n * 100 / 256) (by omega)]
  omega

/-- C4 amended, at the raw duty 5: 5 becomes 1 percent, which becomes 2. -/
theorem scale_round_trip_within_three_witness :
    (0 : Int) ≤ 5 ∧ (5 : Int) ≤ 255
    ∧ scale (scale 5 256 100) 100 256 ≤ 5 ∧ 5 - scale (scale 5 256 100) 100 256 ≤ 3 :=
  ⟨by decide, by decide, scale_round_trip_within_three 5 (by decide) (by decide)⟩

/-! ## Handlers -/

theorem preheat_received (C : Config) (k : Nat) (w : World) (values : List Nat)
    (rest : List (Option (List Nat))) (idx : Nat)
    (hshow : k ≠ C.Show) (hrx : w.rx = some values :: rest) (hlen : values.length = 6)
    (hidx : (k % 65536 + 65535) % 65536 = idx) :
    preheat C k w =
      if idx ≥ NB_PRESETS then
        enqueue_and_echo_commands_P "M500" (set_presets (presets_of_response values)
          (consume_answer (send (Frame.ReadRamDataRequest Variable.Preset1Bed 6) w)))
      else
        match (presets_of_response values).get? idx with
        | none => raise_memory_fault
          (enqueue_and_echo_commands_P "M500" (set_presets (presets_of_response values)
            (consume_answer (send (Frame.ReadRamDataRequest Variable.Preset1Bed 6) w))))
        | some preset =>
          enqueue_and_echo_command ("M140 S" ++ toString preset.bed)
            (enqueue_and_echo_command ("M104 S" ++ toString preset.hotend)
              (enqueue_and_echo_commands_P "M500" (set_presets (presets_of_response values)
                (consume_answer (send (Frame.ReadRamDataRequest Variable.Preset1Bed 6) w))))) := by
  have hr : (receive 6 (send (Frame.ReadRamDataRequest Variable.Preset1Bed 6) w)).1
      = some values := receive_of_answer 6 _ values rest hrx hlen
  unfold preheat
  rw [if_neg hshow]
  dsimp only
  rw [hr, receive_snd]
  dsimp only
  rw [hidx]
  rfl

/-- C2: `preheat(k)` for a 16-bit key `k` other than `Show`, when the response
with the six preset words is received. The presets are overwritten with the
response and `M500` is enqueued. Exactly when `1 <= k <= 3` the commands
`M104 S<hotend>` and `M140 S<bed>` follow, built from element `k - 1` of the
array; for every other `k` nothing follows `M500`. No element outside of the
array is read (`memory_fault` is left as it was). For `k = 2` the element is
slot 1, the third and fourth words of the response. -/
theorem preheat_preset_index (C : Config) (k : Nat) (w : World) (values : List Nat)
    (rest : List (Option (List Nat)))
    (hk : k < 65536) (hshow : k ≠ C.Show)
    (hrx : w.rx = some values :: rest) (hlen : values.length = 6) :
    (preheat C k w).impl.presets_ = presets_of_response values
    ∧ (preheat C k w).memory_fault = w.memory_fault
    ∧ ((1 ≤ k ∧ k ≤ 3) →
      ∃ preset, (preheat C k w).impl.presets_.get? (k - 1) = some preset
        ∧ (preheat C k w).queue =
          w.queue ++ ["M500", "M104 S" ++ toString preset.hotend,
            "M140 S" ++ toString preset.bed])
    ∧ (¬ (1 ≤ k ∧ k ≤ 3) → (preheat C k w).queue = w.queue ++ ["M500"])
    ∧ (k = 2 →
      (preheat C k w).queue =
        w.queue ++ ["M500", "M104 S" ++ toString (presets_of_response values).slot1.hotend,
          "M140 S" ++ toString (presets_of_response values).slot1.bed]) := by
  by_cases hr : 1 ≤ k ∧ k ≤ 3
  · have e := preheat_received C k w values rest (k - 1) hshow hrx hlen (by omega)
    obtain ⟨h1, h3⟩ := hr
    interval_cases k <;>
      simp [e, NB_PRESETS, Presets.get?, Presets.toList, enqueue_and_echo_command,
        enqueue_and_echo_commands_P, set_presets, modify_impl, consume_answer, send]
  · have e := preheat_received C k w values rest _ hshow hrx hlen rfl
    have hidx : (k % 65536 + 65535) % 65536 ≥ NB_PRESETS := by
      unfold NB_PRESETS; omega
    have hk2 : k ≠ 2 := by omega
    rw [if_pos hidx] at e
    simp [e, hr, hk2, enqueue_and_echo_commands_P, set_presets, modify_impl,
      consume_answer, send]

/-- C2 for the key 2 and the key 5, with `Show = 0`: key 2 heats to the second
pair of the response, key 5 enqueues `M500` only. -/
theorem preheat_preset_index_witness :
    (2 : Nat) < 65536 ∧ (2 : Nat) ≠ sample_config.Show
    ∧ preheat_world.rx = [some [190, 55, 210, 65, 230, 75]]
    ∧ (preheat sample_config 2 preheat_world).queue = ["M500", "M104 S210", "M140 S65"]
    ∧ (preheat sample_config 5 preheat_world).queue = ["M500"]
    ∧ (preheat sample_config 5 preheat_world).memory_fault = false :=
  ⟨by decide, by decide, rfl,
    (preheat_preset_index sample_config 2 preheat_world [190, 55, 210, 65, 230, 75] []
      (by decide) (by decide) rfl rfl).2.2.2.2 rfl,
    (preheat_preset_index sample_config 5 preheat_world [190, 55, 210, 65, 230, 75] []
      (by decide) (by decide) rfl rfl).2.2.2.1 (by decide),
    (preheat_preset_index sample_config 5 preheat_world [190, 55, 210, 65, 230, 75] []
      (by decide) (by decide) rfl rfl).2.1⟩

/-- C10 as stated fails for `filament` and `pid_tuning`: the write frame they
send on `KeyValue::Show` does not carry a current value. In a state whose
hotend target is 230 both send the value 200 for `TargetTemperature`, the
frames of `filament` are the same as in a state whose target is 0, and so the
frame of `filament` is not, for every state, the one that carries the current
target. -/
theorem show_frames_carry_constant :
    hot_world.target_temperature = 230
    ∧ (filament sample_config sample_config.Show hot_world).tx =
        [Frame.WriteRamDataRequest Variable.TargetTemperature [Field.u16 200],
         Frame.WriteRegisterDataRequest Register.PictureID
          [Field.u8 0, Field.page Page.Filament]]
    ∧ (pid_tuning sample_config sample_config.Show hot_world).tx =
        [Frame.WriteRamDataRequest Variable.TargetTemperature [Field.u16 200],
         Frame.WriteRegisterDataRequest Register.PictureID
          [Field.u8 0, Field.page Page.AutoPidTuning]]
    ∧ (filament sample_config sample_config.Show hot_world).tx
        = (filament sample_config sample_config.Show sample_world).tx
    ∧ Field.u16 200 ≠ Uint16 hot_world.target_temperature
    ∧ ¬ ∀ w : World, (filament sample_config sample_config.Show w).tx =
        w.tx ++ [Frame.WriteRamDataRequest Variable.TargetTemperature
            [Uint16 w.target_temperature],
          Frame.WriteRegisterDataRequest Register.PictureID
            [Field.u8 0, Field.page Page.Filament]] := by
  refine ⟨rfl, by decide, by decide, by decide, by decide, ?_⟩
  intro h
  have h2 := h hot_world
  revert h2
  decide

/-- C10, amended: `preheat`, `filament` and `pid_tuning` called with
`KeyValue::Show` send one write frame and then the frame that requests the page
`Preheat`, `Filament`, `AutoPidTuning`. The write frame of `preheat` carries
the six current values of the presets; the write frame of `filament` and of
`pid_tuning` carries the fixed value 200 for `TargetTemperature`, whatever the
state. Nothing else changes: no command is enqueued, no read request is sent,
no answer is consumed, and presets, background task, deadlines, graph flag and
temperature targets are left as they were. -/
theorem show_handlers (C : Config) (w : World) :
    preheat C C.Show w =
      { w with tx := w.tx ++
        [Frame.WriteRamDataRequest Variable.Preset1Bed
          [Field.u16 (w.impl.presets_.slot0.hotend % 65536),
           Field.u16 (w.impl.presets_.slot0.bed % 65536),
           Field.u16 (w.impl.presets_.slot1.hotend % 65536),
           Field.u16 (w.impl.presets_.slot1.bed % 65536),
           Field.u16 (w.impl.presets_.slot2.hotend % 65536),
           Field.u16 (w.impl.presets_.slot2.bed % 65536)],
         Frame.WriteRegisterDataRequest Register.PictureID
          [Field.u8 0, Field.page Page.Preheat]] }
    ∧ filament C C.Show w =
      { w with tx := w.tx ++
        [Frame.WriteRamDataRequest Variable.TargetTemperature [Field.u16 200],
         Frame.WriteRegisterDataRequest Register.PictureID
          [Field.u8 0, Field.page Page.Filament]] }
    ∧ pid_tuning C C.Show w =
      { w with tx := w.tx ++
        [Frame.WriteRamDataRequest Variable.TargetTemperature [Field.u16 200],
         Frame.WriteRegisterDataRequest Register.PictureID
          [Field.u8 0, Field.page Page.AutoPidTuning]] } := by
  have hu : ∀ n : Nat, toUint16 (n : Int) = n % 65536 := by
    intro n; unfold toUint16; omega
  refine ⟨?_, ?_, ?_⟩
  · simp [preheat, show_page, send, presets_payload, Uint16, hu]
  · simp [filament, show_page, send]
  · simp [pid_tuning, show_page, send]

/-! ## Dispatcher -/

theorem Action.mem_all (a : Action) : a ∈ Action.all := by
  cases a <;> simp [Action.all]

theorem select_some (C : Config) (action : Nat) (a : Action) (h : select C action = some a) :
    C.action_code a = action := by
  have := List.find?_some h
  simpa using this

theorem select_none (C : Config) (action : Nat) (h : select C action = none) (a : Action) :
    C.action_code a ≠ action := by
  have := List.find?_eq_none.mp h a (Action.mem_all a)
  simpa using this

/-- C5: a received frame whose action code is the code of some `Action` makes
`read_lcd_serial` call one handler, the one of an action with this code, and
no other: the result is the result of this handler and the record of the
calls grows by this action only. A frame whose action code is the code of no
`Action` calls no handler and leaves everything as it was: no frame is sent, no
command is enqueued, no member of the controller changes. -/
theorem read_lcd_serial_dispatch (C : Config) (command action nb_words value : Nat)
    (w : World) :
    ((∃ a, C.action_code a = action) →
      ∃ a, C.action_code a = action
        ∧ read_lcd_serial C (Incoming.Received command action nb_words value) w
            = handler C a (value % 65536) (record_invoked a w)
        ∧ (read_lcd_serial C (Incoming.Received command action nb_words value) w).invoked
            = w.invoked ++ [a])
    ∧ ((∀ a, C.action_code a ≠ action) →
      read_lcd_serial C (Incoming.Received command action nb_words value) w = w
      ∧ (read_lcd_serial C (Incoming.Received command action nb_words value) w).invoked
            = w.invoked) := by
  constructor
  · rintro ⟨b, hb⟩
    cases h : select C action with
    | none => exact absurd hb (select_none C action h b)
    | some a =>
      have e : read_lcd_serial C (Incoming.Received command action nb_words value) w
          = handler C a (value % 65536) (record_invoked a w) := by
        simp [read_lcd_serial, h]
      refine ⟨a, select_some C action a h, e, ?_⟩
      rw [e, handler_invoked]
      rfl
  · intro hno
    cases h : select C action with
    | none =>
      have e : read_lcd_serial C (Incoming.Received command action nb_words value) w = w := by
        simp [read_lcd_serial, h]
      rw [e]
      exact ⟨rfl, rfl⟩
    | some a => exact absurd (select_some C action a h) (hno a)

theorem sample_config_unknown_action (a : Action) : sample_config.action_code a ≠ 0xFFFF := by
  cases a <;> decide

/-- C5 at the action code `0xFFFF`, which is the code of no action of the
sample configuration, and at the code `0x0405` of `Preheat`. -/
theorem read_lcd_serial_dispatch_witness :
    (∀ a, sample_config.action_code a ≠ 0xFFFF)
    ∧ read_lcd_serial sample_config (Incoming.Received 0x83 0xFFFF 1 0) sample_world
        = sample_world
    ∧ (∃ a, sample_config.action_code a = 0x0405)
    ∧ ∃ a, sample_config.action_code a = 0x0405
        ∧ read_lcd_serial sample_config (Incoming.Received 0x83 0x0405 1 0) sample_world
            = handler sample_config a (0 % 65536) (record_invoked a sample_world)
        ∧ (read_lcd_serial sample_config (Incoming.Received 0x83 0x0405 1 0) sample_world).invoked
            = sample_world.invoked ++ [a] :=
  ⟨sample_config_unknown_action,
    ((read_lcd_serial_dispatch sample_config 0x83 0xFFFF 1 0 sample_world).2
      sample_config_unknown_action).1,
    ⟨Action.Preheat, by decide⟩,
    (read_lcd_serial_dispatch sample_config 0x83 0x0405 1 0 sample_world).1
      ⟨Action.Preheat, by decide⟩⟩

/-- C7, the case of `temperature_graph`: with a key other than `Back` and a
response that is not received, the handler does not give up. In a state whose
`last_page_` is `Tools` and whose graph flag is off, `last_page_` becomes
`Page::None`, the graph flag is switched on and the page `Temperature` is
requested. -/
theorem temperature_graph_receive_failure :
    graph_world.impl.last_page_ = Page.Tools
    ∧ graph_world.impl.temp_graph_update_ = false
    ∧ graph_world.rx = [none]
    ∧ (0 : Nat) ≠ sample_config.Back
    ∧ (temperature_graph sample_config 0 graph_world).impl.last_page_ = Page.None
    ∧ (temperature_graph sample_config 0 graph_world).impl.temp_graph_update_ = true
    ∧ (temperature_graph sample_config 0 graph_world).tx =
        [Frame.ReadRegisterDataRequest Register.PictureID 2,
         Frame.WriteRegisterDataRequest Register.PictureID
           [Field.u8 0, Field.page Page.Temperature]] := by
  decide

/-- C8, as stated, fails. Two cycles from a state with no task: the action
`Filament` with the key `Load` arms `LoadFilament`, and in the next cycle the
action `Level` with the key `LevelStart` arms `LevelInit`. The task goes from
one kind to another with no `None` in between, and the second handler arms a
task while the task is not `None`. -/
theorem background_task_changes_kind :
    (run sample_config filament_world
      [(1000, Incoming.Received 0x83 0x040E 1 1)]).impl.background_task_
        = BackgroundTask.LoadFilament
    ∧ (run sample_config filament_world
      [(1000, Incoming.Received 0x83 0x040E 1 1),
       (1100, Incoming.Received 0x83 0x040D 1 0)]).impl.background_task_
        = BackgroundTask.LevelInit
    ∧ (run sample_config filament_world
      [(1000, Incoming.Received 0x83 0x040E 1 1),
       (1100, Incoming.Received 0x83 0x040D 1 0)]).invoked
        = [Action.Filament, Action.Level] := by
  decide

/-! ## Background task across handlers -/

theorem receive_fst_send (n : Nat) (f : Frame) (w : World) :
    (receive n (send f w)).1 = (receive n w).1 := by
  rcases h : w.rx with _ | ⟨_ | values, rest⟩ <;> simp [receive, send, h]
  split <;> rfl

theorem execute_background_task_keeps_or_clears (w : World) :
    (execute_background_task w).impl.background_task_ = w.impl.background_task_
    ∨ (execute_background_task w).impl.background_task_ = BackgroundTask.None := by
  unfold execute_background_task
  split
  · exact Or.inl rfl
  · split
    · unfold leveling_init
      split
      · right; simp
      · left; simp [set_next_background_task_time]
    · left
      unfold unload_filament
      dsimp only
      split <;> simp [set_next_background_task_time]
    · left
      unfold load_filament
      dsimp only
      split <;> simp [set_next_background_task_time]
    · exact Or.inl rfl

theorem send_status_update_task (w : World) :
    (send_status_update w).impl.background_task_ = w.impl.background_task_ := by
  unfold send_status_update
  dsimp only
  split
  · rfl
  · split <;> simp [update_graph_data, set_next_update_time]

theorem filament_task (C : Config) (k : Nat) (w : World) (hshow : k ≠ C.Show) :
    (filament C k w).impl.background_task_ =
      match (receive 1 w).1 with
      | none => w.impl.background_task_
      | some _ =>
        if k = C.Load then BackgroundTask.LoadFilament else BackgroundTask.UnloadFilament := by
  have hr : (receive 1 (send (Frame.ReadRamDataRequest Variable.TargetTemperature 1) w)).1
      = (receive 1 w).1 := receive_fst_send 1 _ w
  unfold filament
  rw [if_neg hshow]
  dsimp only
  rw [hr]
  cases (receive 1 w).1 with
  | none => simp
  | some values => simp

theorem level_task (C : Config) (k : Nat) (w : World) :
    (level C k w).impl.background_task_ =
      if k = C.LevelStart then BackgroundTask.LevelInit else w.impl.background_task_ := by
  unfold level
  split_ifs <;> simp [level_step]

/-- C8, amended: the scheduler step keeps the background task or sets it to
`None`; the status update keeps it; every handler other than `level` and
`filament` keeps it or sets it to `None`. `level` with `LevelStart` sets it to
`LevelInit` and `filament` with a key other than `Show` and a received
response sets it to `LoadFilament` or `UnloadFilament`, whatever the task was
before; with the other keys, or without a response, they keep it. -/
theorem background_task_transitions (C : Config) (w : World) :
    ((execute_background_task w).impl.background_task_ = w.impl.background_task_
      ∨ (execute_background_task w).impl.background_task_ = BackgroundTask.None)
    ∧ (send_status_update w).impl.background_task_ = w.impl.background_task_
    ∧ (∀ a k, a ≠ Action.Level → a ≠ Action.Filament →
      (handler C a k w).impl.background_task_ = w.impl.background_task_
      ∨ (handler C a k w).impl.background_task_ = BackgroundTask.None)
    ∧ (∀ k, k ≠ C.LevelStart →
      (level C k w).impl.background_task_ = w.impl.background_task_)
    ∧ (level C C.LevelStart w).impl.background_task_ = BackgroundTask.LevelInit
    ∧ (filament C C.Show w).impl.background_task_ = w.impl.background_task_
    ∧ (∀ k, k ≠ C.Show → (receive 1 w).1 = none →
      (filament C k w).impl.background_task_ = w.impl.background_task_)
    ∧ (∀ k, k ≠ C.Show → (receive 1 w).1 ≠ none →
      (filament C k w).impl.background_task_ =
        if k = C.Load then BackgroundTask.LoadFilament else BackgroundTask.UnloadFilament) := by
  refine ⟨execute_background_task_keeps_or_clears w, send_status_update_task w, ?_, ?_, ?_,
    ?_, ?_, ?_⟩
  · intro a k h1 h2
    by_cases h3 : a = Action.LoadUnloadBack
    · right
      subst h3
      simp [handler, load_unload_back]
    · exact Or.inl (handler_task C a k w h1 h2 h3)
  · intro k hk
    rw [level_task, if_neg hk]
  · rw [level_task, if_pos rfl]
  · simp [filament]
  · intro k hk hr
    rw [filament_task C k w hk, hr]
  · intro k hk hr
    rw [filament_task C k w hk]
    cases h : (receive 1 w).1 with
    | none => exact absurd h hr
    | some values => rfl

/-- C8 amended, in a state whose task is `LoadFilament`: `level` with
`LevelStart` arms `LevelInit`, and the scheduler step keeps the task. -/
theorem background_task_transitions_witness :
    load_world.impl.background_task_ = BackgroundTask.LoadFilament
    ∧ (level sample_config sample_config.LevelStart load_world).impl.background_task_
        = BackgroundTask.LevelInit
    ∧ ((execute_background_task load_world).impl.background_task_
        = load_world.impl.background_task_
      ∨ (execute_background_task load_world).impl.background_task_ = BackgroundTask.None) :=
  ⟨rfl, (background_task_transitions sample_config load_world).2.2.2.2.1,
    (background_task_transitions sample_config load_world).1⟩

/-- The handlers that check the result of `receive` give up when the response
is not received: the read request has been sent, the answer consumed, and
nothing else has changed. -/
theorem checked_handlers_abort (C : Config) (k : Nat) (w : World)
    (rest : List (Option (List Nat))) (hshow : k ≠ C.Show)
    (hrx : w.rx = [] ∨ w.rx = none :: rest) :
    preheat C k w = consume_answer (send (Frame.ReadRamDataRequest Variable.Preset1Bed 6) w)
    ∧ save_motors_or_pid_settings C w =
      consume_answer (send (Frame.ReadRamDataRequest Variable.MotorSettingsX 7) w)
    ∧ save_print_settings w =
      consume_answer (send (Frame.ReadRamDataRequest Variable.PrintSettingsSpeed 4) w)
    ∧ filament C k w =
      consume_answer (send (Frame.ReadRamDataRequest Variable.TargetTemperature 1) w)
    ∧ pid_tuning C k w =
      consume_answer (send (Frame.ReadRamDataRequest Variable.TargetTemperature 1) w) := by
  have hr : ∀ n f, (receive n (send f w)).1 = none :=
    fun n f => receive_of_failure n (send f w) rest hrx
  refine ⟨?_, ?_, ?_, ?_, ?_⟩
  · unfold preheat
    rw [if_neg hshow]
    dsimp only
    rw [hr, receive_snd]
  · unfold save_motors_or_pid_settings
    dsimp only
    rw [hr, receive_snd]
  · unfold save_print_settings
    dsimp only
    rw [hr, receive_snd]
  · unfold filament
    rw [if_neg hshow]
    dsimp only
    rw [hr, receive_snd]
  · unfold pid_tuning
    rw [if_neg hshow]
    dsimp only
    rw [hr, receive_snd]

/-- When the response is not received, `temperature_graph` with a key other
than `Back` goes on: it stores `Page::None` in `last_page_`, switches graph
updates on and requests the page `Temperature`. -/
theorem temperature_graph_goes_on (C : Config) (k : Nat) (w : World)
    (rest : List (Option (List Nat))) (hback : k ≠ C.Back)
    (hrx : w.rx = [] ∨ w.rx = none :: rest) :
    temperature_graph C k w =
      show_page Page.Temperature (set_temp_graph_update true (set_last_page Page.None
        (consume_answer (send (Frame.ReadRegisterDataRequest Register.PictureID 2) w)))) := by
  have hr : (receive 2 (send (Frame.ReadRegisterDataRequest Register.PictureID 2) w)).1 = none :=
    receive_of_failure 2 _ rest hrx
  unfold temperature_graph
  rw [if_neg hback]
  unfold get_current_page
  dsimp only
  rw [hr, receive_snd]

/-! ## Cancellation -/

theorem execute_background_task_of_None (w : World)
    (h : w.impl.background_task_ = BackgroundTask.None) : execute_background_task w = w := by
  unfold execute_background_task
  split
  · rfl
  · rw [h]

/-- C11, as stated, fails: after `load_unload_back` the command queue is not
empty, it holds the command `G90` enqueued after the queue is cleared. -/
theorem load_unload_back_queue_not_empty :
    ¬ ∀ w : World, (load_unload_back w).impl.background_task_ = BackgroundTask.None
      ∧ (load_unload_back w).queue = [] := by
  intro h
  have h2 := (h load_world).2
  revert h2
  decide

/-- C11, amended: after `load_unload_back` the background task is `None` and
the command queue holds the command `G90` alone, whatever it held before; the
target of the hotend is 0; and at whatever clock value the scheduler steps
next, the step changes nothing, so no filament move is enqueued. -/
theorem load_unload_back_cancels (w : World) :
    (load_unload_back w).impl.background_task_ = BackgroundTask.None
    ∧ (load_unload_back w).queue = ["G90"]
    ∧ (load_unload_back w).target_temperature = 0
    ∧ ∀ now, execute_background_task (set_millis now (load_unload_back w))
        = set_millis now (load_unload_back w) := by
  refine ⟨by simp [load_unload_back], ?_, rfl, ?_⟩
  · simp [load_unload_back, show_page, send, setTargetHotend, enqueue_and_echo_commands_P,
      clear_command_queue]
  · intro now
    apply execute_background_task_of_None
    simp [load_unload_back]

/-- C12, as stated, fails: in a state whose task is `LoadFilament` the task is
still `LoadFilament` after `print_stop`. -/
theorem print_stop_does_not_clear_task :
    ¬ ∀ w : World, (print_stop w).impl.background_task_ = BackgroundTask.None := by
  intro h
  have h2 := h load_world
  revert h2
  decide

/-- C12, amended: `print_stop` does not assign the background task. After it
returns the task is what it was before, `None` only if it was `None`; the
command queue is empty and graph updates are off. -/
theorem print_stop_keeps_task (w : World) :
    (print_stop w).impl.background_task_ = w.impl.background_task_
    ∧ (print_stop w).queue = []
    ∧ (print_stop w).impl.temp_graph_update_ = false := by
  refine ⟨by simp [print_stop], rfl, rfl⟩


/-! ## Deadlines and wraparound -/

theorem ELAPSED_iff_of_wraparound (t0 d e : Nat) (hd : d = 200 ∨ d = 500)
    (he : e < 2147483648) :
    (ELAPSED ((t0 + e) % 4294967296) ((t0 + d) % 4294967296) = true ↔ d ≤ e) := by
  unfold ELAPSED PENDING
  simp only [Bool.not_eq_true', decide_eq_false_iff_not, not_le]
  rcases hd with rfl | rfl <;> omega

theorem send_status_update_tx_length (w : World) :
    (ELAPSED w.millis w.impl.next_update_time_ = true →
      (send_status_update w).tx.length > w.tx.length)
    ∧ (ELAPSED w.millis w.impl.next_update_time_ = false →
      (send_status_update w).tx.length = w.tx.length) := by
  constructor
  · intro h
    rw [send_status_update_tx w h]
    simp
  · intro h
    rw [send_status_update_idle w h]

/-- C13: with a deadline set to `(t0 + d) mod 2^32` for `d` one of 200 and 500,
and the clock at `(t0 + e) mod 2^32` for `e` below `2^31`, `ELAPSED` holds
exactly when `d <= e`, wherever the sums wrap. So the scheduler step runs the
step function of the task exactly when `d <= e`, and the status update sends
frames exactly when `d <= e`. -/
theorem deadline_wraparound (w : World) (t0 d e : Nat) (hd : d = 200 ∨ d = 500)
    (he : e < 2147483648) (hnow : w.millis = (t0 + e) % 4294967296) :
    (ELAPSED ((t0 + e) % 4294967296) ((t0 + d) % 4294967296) = true ↔ d ≤ e)
    ∧ (w.impl.next_op_time_ = (t0 + d) % 4294967296 →
      (d ≤ e → execute_background_task w =
        match w.impl.background_task_ with
        | BackgroundTask.LevelInit => leveling_init w
        | BackgroundTask.UnloadFilament => unload_filament w
        | BackgroundTask.LoadFilament => load_filament w
        | _ => w)
      ∧ (e < d → execute_background_task w = w))
    ∧ (w.impl.next_update_time_ = (t0 + d) % 4294967296 →
      (d ≤ e → (send_status_update w).tx.length > w.tx.length)
      ∧ (e < d → send_status_update w = w)) := by
  have key := ELAPSED_iff_of_wraparound t0 d e hd he
  refine ⟨key, ?_, ?_⟩
  · intro hop
    constructor
    · intro hde
      have h : ELAPSED w.millis w.impl.next_op_time_ = true := by
        rw [hnow, hop]; exact key.mpr hde
      unfold execute_background_task
      rw [h]
      cases w.impl.background_task_ <;> rfl
    · intro hde
      have h : ELAPSED w.millis w.impl.next_op_time_ = false := by
        rw [hnow, hop]
        cases hb : ELAPSED ((t0 + e) % 4294967296) ((t0 + d) % 4294967296)
        · rfl
        · exact absurd (key.mp hb) (by omega)
      unfold execute_background_task
      rw [h]
      rfl
  · intro hup
    constructor
    · intro hde
      have h : ELAPSED w.millis w.impl.next_update_time_ = true := by
        rw [hnow, hup]; exact key.mpr hde
      exact (send_status_update_tx_length w).1 h
    · intro hde
      have h : ELAPSED w.millis w.impl.next_update_time_ = false := by
        rw [hnow, hup]
        cases hb : ELAPSED ((t0 + e) % 4294967296) ((t0 + d) % 4294967296)
        · rfl
        · exact absurd (key.mp hb) (by omega)
      exact send_status_update_idle w h

/-- C13 where the clock wraps: the deadline is set 200 units after the clock
value `4294967200` and the clock shows 250 units after it, that is 154 for a
deadline of 104. The step fires. -/
theorem deadline_wraparound_witness :
    (200 = 200 ∨ 200 = 500) ∧ 250 < 2147483648
    ∧ wrapped_world.millis = (4294967200 + 250) % 4294967296
    ∧ wrapped_world.impl.next_op_time_ = (4294967200 + 200) % 4294967296
    ∧ (ELAPSED ((4294967200 + 250) % 4294967296) ((4294967200 + 200) % 4294967296) = true
        ↔ 200 ≤ 250)
    ∧ execute_background_task wrapped_world = load_filament wrapped_world :=
  ⟨Or.inl rfl, by decide, by decide, by decide,
    (deadline_wraparound wrapped_world 4294967200 200 250 (Or.inl rfl) (by decide)
      (by decide)).1,
    ((deadline_wraparound wrapped_world 4294967200 200 250 (Or.inl rfl) (by decide)
      (by decide)).2.1 (by decide)).1 (by decide)⟩

/-! ## Storage of the presets -/

theorem uint16_of_bytes_of_uint16 (v : Nat) (h : v < 65536) :
    uint16_of_bytes (bytes_of_uint16 v) = v := by
  simp [uint16_of_bytes, bytes_of_uint16]
  omega

theorem store_presets_calls {σ : Type} (write : eeprom_write σ) (e : Eeprom σ) (w : World) :
    store_presets write e w =
      write (write (write (write (write (write e
        (bytes_of_uint16 w.impl.presets_.slot0.hotend) 2)
        (bytes_of_uint16 w.impl.presets_.slot0.bed) 2)
        (bytes_of_uint16 w.impl.presets_.slot1.hotend) 2)
        (bytes_of_uint16 w.impl.presets_.slot1.bed) 2)
        (bytes_of_uint16 w.impl.presets_.slot2.hotend) 2)
        (bytes_of_uint16 w.impl.presets_.slot2.bed) 2 := rfl

theorem memory_write_index (crc : Nat → Nat → Nat) (e : Eeprom (Int → Nat))
    (value : List Nat) (size : Nat) :
    (memory_write crc e value size).eeprom_index = e.eeprom_index + size := rfl

theorem stored_of_write (crc : Nat → Nat → Nat) (e : Eeprom (Int → Nat)) (v : Nat) :
    stored (memory_write crc e (bytes_of_uint16 v) 2).storage e.eeprom_index v := by
  constructor
  · simp [memory_write, bytes_of_uint16]
  · simp [memory_write, bytes_of_uint16]

theorem stored_after_write (crc : Nat → Nat → Nat) (e : Eeprom (Int → Nat)) (p : Int)
    (v : Nat) (value : List Nat) (size : Nat) (h : stored e.storage p v)
    (hp : p + 2 ≤ e.eeprom_index) :
    stored (memory_write crc e value size).storage p v := by
  have n1 : ¬ (e.eeprom_index ≤ p ∧ p < e.eeprom_index + size) := by omega
  have n2 : ¬ (e.eeprom_index ≤ p + 1 ∧ p + 1 < e.eeprom_index + size) := by omega
  constructor
  · simp only [memory_write, if_neg n1]; exact h.1
  · simp only [memory_write, if_neg n2]; exact h.2

theorem restore_preset_of_stored (crc : Nat → Nat → Nat) (e : Eeprom (Int → Nat))
    (old : Preset) (hotend bed : Nat) (hh : hotend < 65536) (hb : bed < 65536)
    (h1 : stored e.storage e.eeprom_index hotend)
    (h2 : stored e.storage (e.eeprom_index + 2) bed) :
    (restore_preset (memory_read crc) e old).2 = { hotend := hotend, bed := bed }
    ∧ (restore_preset (memory_read crc) e old).1.storage = e.storage
    ∧ (restore_preset (memory_read crc) e old).1.eeprom_index = e.eeprom_index + 4 := by
  obtain ⟨a1, a2⟩ := h1
  obtain ⟨b1, b2⟩ := h2
  have e3 : e.eeprom_index + 2 + 1 = e.eeprom_index + 3 := by ring
  rw [e3] at b2
  refine ⟨?_, rfl, ?_⟩
  · simp [restore_preset, memory_read, sizeof_uint16, List.range, List.range.loop,
      uint16_of_bytes, a1, a2, b1, add_assoc, b2]
    constructor <;> omega
  · simp [restore_preset, memory_read, sizeof_uint16]
    ring

theorem store_preset_stored (crc : Nat → Nat → Nat) (e : Eeprom (Int → Nat))
    (preset : Preset) :
    (store_preset (memory_write crc) e preset).eeprom_index = e.eeprom_index + 4
    ∧ stored (store_preset (memory_write crc) e preset).storage e.eeprom_index preset.hotend
    ∧ stored (store_preset (memory_write crc) e preset).storage (e.eeprom_index + 2) preset.bed
    ∧ ∀ p v, stored e.storage p v → p + 2 ≤ e.eeprom_index →
      stored (store_preset (memory_write crc) e preset).storage p v := by
  have i1 : (memory_write crc e (bytes_of_uint16 preset.hotend) sizeof_uint16).eeprom_index
      = e.eeprom_index + 2 := rfl
  refine ⟨?_, ?_, ?_, ?_⟩
  · simp only [store_preset, sizeof_uint16, memory_write_index]
    push_cast
    ring
  · exact stored_after_write crc _ _ _ _ _ (stored_of_write crc e preset.hotend)
      (by rw [i1])
  · have h := stored_of_write crc
      (memory_write crc e (bytes_of_uint16 preset.hotend) sizeof_uint16) preset.bed
    rw [i1] at h
    exact h
  · intro p v h hp
    exact stored_after_write crc _ _ _ _ _
      (stored_after_write crc e p v _ _ h hp) (by rw [i1]; omega)

theorem restore_after_store (crc : Nat → Nat → Nat) (e : Eeprom (Int → Nat)) (w w2 : World)
    (c : Nat)
    (h0 : w.impl.presets_.slot0.hotend < 65536) (h1 : w.impl.presets_.slot0.bed < 65536)
    (h2 : w.impl.presets_.slot1.hotend < 65536) (h3 : w.impl.presets_.slot1.bed < 65536)
    (h4 : w.impl.presets_.slot2.hotend < 65536) (h5 : w.impl.presets_.slot2.bed < 65536) :
    (restore_presets (memory_read crc)
      { storage := (store_presets (memory_write crc) e w).storage
        eeprom_index := e.eeprom_index, working_crc := c } w2).2.impl.presets_
      = w.impl.presets_ := by
  obtain ⟨ia, ha, ba, ka⟩ := store_preset_stored crc e w.impl.presets_.slot0
  obtain ⟨ib, hb, bb, kb⟩ := store_preset_stored crc
    (store_preset (memory_write crc) e w.impl.presets_.slot0) w.impl.presets_.slot1
  obtain ⟨_, hc, bc, kc⟩ := store_preset_stored crc
    (store_preset (memory_write crc)
      (store_preset (memory_write crc) e w.impl.presets_.slot0) w.impl.presets_.slot1)
    w.impl.presets_.slot2
  have hm : (store_presets (memory_write crc) e w).storage =
      (store_preset (memory_write crc)
        (store_preset (memory_write crc)
          (store_preset (memory_write crc) e w.impl.presets_.slot0) w.impl.presets_.slot1)
        w.impl.presets_.slot2).storage := rfl
  rw [hm]
  generalize (store_preset (memory_write crc)
        (store_preset (memory_write crc)
          (store_preset (memory_write crc) e w.impl.presets_.slot0) w.impl.presets_.slot1)
        w.impl.presets_.slot2).storage = m at *
  rw [ib, ia] at hc bc
  rw [ia] at hb bb
  have s0 : stored m e.eeprom_index w.impl.presets_.slot0.hotend :=
    kc _ _ (kb _ _ ha (by omega)) (by omega)
  have s1 : stored m (e.eeprom_index + 2) w.impl.presets_.slot0.bed :=
    kc _ _ (kb _ _ ba (by omega)) (by omega)
  have s2 : stored m (e.eeprom_index + 4) w.impl.presets_.slot1.hotend :=
    kc _ _ hb (by omega)
  have s3 : stored m (e.eeprom_index + 4 + 2) w.impl.presets_.slot1.bed :=
    kc _ _ bb (by omega)
  obtain ⟨ra, ma, ja⟩ := restore_preset_of_stored crc
    { storage := m, eeprom_index := e.eeprom_index, working_crc := c }
    w2.impl.presets_.slot0 _ _ h0 h1 s0 s1
  obtain ⟨rb, mb, jb⟩ := restore_preset_of_stored crc
    (restore_preset (memory_read crc)
      { storage := m, eeprom_index := e.eeprom_index, working_crc := c }
      w2.impl.presets_.slot0).1
    w2.impl.presets_.slot1 _ _ h2 h3 (by rw [ma, ja]; exact s2) (by rw [ma, ja]; exact s3)
  obtain ⟨rc, _, _⟩ := restore_preset_of_stored crc
    (restore_preset (memory_read crc)
      (restore_preset (memory_read crc)
        { storage := m, eeprom_index := e.eeprom_index, working_crc := c }
        w2.impl.presets_.slot0).1
      w2.impl.presets_.slot1).1
    w2.impl.presets_.slot2 _ _ h4 h5
    (by rw [mb, ma, jb, ja]; exact hc) (by rw [mb, ma, jb, ja]; exact bc)
  show ({ slot0 := _, slot1 := _, slot2 := _ } : Presets) = _
  rw [ra, rb, rc]

theorem restore_presets_noop {σ : Type} (e : Eeprom σ) (w : World)
    (h0 : w.impl.presets_.slot0.hotend < 65536) (h1 : w.impl.presets_.slot0.bed < 65536)
    (h2 : w.impl.presets_.slot1.hotend < 65536) (h3 : w.impl.presets_.slot1.bed < 65536)
    (h4 : w.impl.presets_.slot2.hotend < 65536) (h5 : w.impl.presets_.slot2.bed < 65536) :
    restore_presets noop_read e w = (e, w) := by
  simp [restore_presets, restore_preset, noop_read, uint16_of_bytes_of_uint16, h0, h1, h2, h3,
    h4, h5, set_presets, modify_impl]

/-- The six calls of a storage callback for the presets, the cursor starting at
`cursor`: for each preset the hotend then the bed, two bytes each. -/
theorem recorded_calls_eq (cursor : Int) (crc0 : Nat) (w : World) :
    (store_presets recording_write
      { storage := [], eeprom_index := cursor, working_crc := crc0 } w).storage =
      [{ eeprom_index := cursor, value := bytes_of_uint16 w.impl.presets_.slot0.hotend, size := 2 },
       { eeprom_index := cursor + 2, value := bytes_of_uint16 w.impl.presets_.slot0.bed, size := 2 },
       { eeprom_index := cursor + 4, value := bytes_of_uint16 w.impl.presets_.slot1.hotend, size := 2 },
       { eeprom_index := cursor + 6, value := bytes_of_uint16 w.impl.presets_.slot1.bed, size := 2 },
       { eeprom_index := cursor + 8, value := bytes_of_uint16 w.impl.presets_.slot2.hotend, size := 2 },
       { eeprom_index := cursor + 10, value := bytes_of_uint16 w.impl.presets_.slot2.bed, size := 2 }]
    ∧ (restore_presets recording_read
      { storage := [], eeprom_index := cursor, working_crc := crc0 } w).1.storage =
      [{ eeprom_index := cursor, value := bytes_of_uint16 w.impl.presets_.slot0.hotend, size := 2 },
       { eeprom_index := cursor + 2, value := bytes_of_uint16 w.impl.presets_.slot0.bed, size := 2 },
       { eeprom_index := cursor + 4, value := bytes_of_uint16 w.impl.presets_.slot1.hotend, size := 2 },
       { eeprom_index := cursor + 6, value := bytes_of_uint16 w.impl.presets_.slot1.bed, size := 2 },
       { eeprom_index := cursor + 8, value := bytes_of_uint16 w.impl.presets_.slot2.hotend, size := 2 },
       { eeprom_index := cursor + 10, value := bytes_of_uint16 w.impl.presets_.slot2.bed, size := 2 }] := by
  constructor
  · rw [store_presets_calls]
    simp [recording_write, add_assoc]
  · simp [restore_presets, restore_preset, recording_read, sizeof_uint16, add_assoc]

/-- C14: `store_presets` calls the write callback six times, for preset 0
hotend, preset 0 bed, preset 1 hotend, preset 1 bed, preset 2 hotend, preset 2
bed in this order, each time with the two bytes of the field and the length 2,
and `restore_presets` calls the read callback for the same fields in the same
order with the length 2. With callbacks that write and read bytes at an
advancing cursor, `restore_presets` run on the storage `store_presets` wrote,
from the cursor it started at, yields the stored presets, whatever the presets
were before; with a read callback that does nothing the presets are left as
they are. -/
theorem presets_storage (crc : Nat → Nat → Nat) (e : Eeprom (Int → Nat)) (c : Nat)
    (w w2 : World) (hv : w.impl.presets_.valid) :
    (∀ (σ : Type) (write : eeprom_write σ) (s : Eeprom σ),
      store_presets write s w =
        write (write (write (write (write (write s
          (bytes_of_uint16 w.impl.presets_.slot0.hotend) 2)
          (bytes_of_uint16 w.impl.presets_.slot0.bed) 2)
          (bytes_of_uint16 w.impl.presets_.slot1.hotend) 2)
          (bytes_of_uint16 w.impl.presets_.slot1.bed) 2)
          (bytes_of_uint16 w.impl.presets_.slot2.hotend) 2)
          (bytes_of_uint16 w.impl.presets_.slot2.bed) 2)
    ∧ (∀ cursor crc0,
      (store_presets recording_write
        { storage := [], eeprom_index := cursor, working_crc := crc0 } w).storage =
        [{ eeprom_index := cursor, value := bytes_of_uint16 w.impl.presets_.slot0.hotend,
           size := 2 },
         { eeprom_index := cursor + 2, value := bytes_of_uint16 w.impl.presets_.slot0.bed,
           size := 2 },
         { eeprom_index := cursor + 4, value := bytes_of_uint16 w.impl.presets_.slot1.hotend,
           size := 2 },
         { eeprom_index := cursor + 6, value := bytes_of_uint16 w.impl.presets_.slot1.bed,
           size := 2 },
         { eeprom_index := cursor + 8, value := bytes_of_uint16 w.impl.presets_.slot2.hotend,
           size := 2 },
         { eeprom_index := cursor + 10, value := bytes_of_uint16 w.impl.presets_.slot2.bed,
           size := 2 }]
      ∧ (restore_presets recording_read
        { storage := [], eeprom_index := cursor, working_crc := crc0 } w).1.storage =
        (store_presets recording_write
          { storage := [], eeprom_index := cursor, working_crc := crc0 } w).storage)
    ∧ (restore_presets (memory_read crc)
        { storage := (store_presets (memory_write crc) e w).storage
          eeprom_index := e.eeprom_index, working_crc := c } w2).2.impl.presets_
        = w.impl.presets_
    ∧ (∀ (σ : Type) (s : Eeprom σ), restore_presets noop_read s w = (s, w)) := by
  obtain ⟨h0, h1, h2, h3, h4, h5⟩ := hv
  refine ⟨fun σ write s => store_presets_calls write s w, ?_, ?_, ?_⟩
  · intro cursor crc0
    have h := recorded_calls_eq cursor crc0 w
    exact ⟨h.1, h.2.trans h.1.symm⟩
  · exact restore_after_store crc e w w2 c h0 h1 h2 h3 h4 h5
  · intro σ s
    exact restore_presets_noop s w h0 h1 h2 h3 h4 h5

/-- C14 at the presets (180, 50), (200, 60), (220, 70): written from the cursor
100 and read back over the presets (190, 55), (210, 65), (230, 75). -/
theorem presets_storage_witness :
    sample_world.impl.presets_.valid
    ∧ (restore_presets (memory_read (fun a b => a + b))
        { storage := (store_presets (memory_write (fun a b => a + b))
            sample_eeprom sample_world).storage
          eeprom_index := sample_eeprom.eeprom_index, working_crc := 0 }
        (preheat sample_config 1 preheat_world)).2.impl.presets_
        = sample_world.impl.presets_
    ∧ restore_presets noop_read sample_eeprom sample_world = (sample_eeprom, sample_world) :=
  ⟨by decide,
    (presets_storage (fun a b => a + b) sample_eeprom 0 sample_world
      (preheat sample_config 1 preheat_world) (by decide)).2.2.1,
    (presets_storage (fun a b => a + b) sample_eeprom 0 sample_world
      (preheat sample_config 1 preheat_world) (by decide)).2.2.2 _ sample_eeprom⟩

/-! ## Statistics -/

theorem truncate_natCast_div (m d : Nat) :
    truncate ((m : ℚ) / (d : ℚ)) = ((m / d : Nat) : Int) := by
  unfold truncate
  have hq : (0 : ℚ) ≤ (m : ℚ) / (d : ℚ) := by positivity
  have hn : 0 ≤ ((m : ℚ) / (d : ℚ)).num := Rat.num_nonneg.mpr hq
  rw [Int.tdiv_eq_ediv hn (Int.natCast_nonneg _), ← Rat.floor_def,
    Rat.floor_natCast_div_natCast]
  rfl

theorem toUint16_natCast (n : Nat) (h : n < 65536) : toUint16 (n : Int) = n := by
  unfold toUint16
  omega

theorem take_of_short (s : String) (n : Nat) (h : s.length ≤ n) :
    String.mk (s.data.take n) = s := by
  rw [List.take_of_length_le h]

theorem filament_text_length (a b : Nat) (ha : a < 10000) (hb : b < 10) :
    (toString a ++ "." ++ toString b).length ≤ 6 := by
  have h1 : (Nat.repr a).length ≤ 4 := Nat.repr_length a 4 (by decide) (by simpa using ha)
  have h2 : (Nat.repr b).length ≤ 1 := Nat.repr_length b 1 (by decide) (by simpa using hb)
  simp only [String.length_append]
  have h3 : (toString a).length = (Nat.repr a).length := rfl
  have h4 : (toString b).length = (Nat.repr b).length := rfl
  have h5 : (".").length = 1 := rfl
  omega

/-- C15: with `PRINTCOUNTER` enabled, a capacity of `Chars<>` of at least six
characters and a filament use of `m` whole millimetres such that `m / 100`
fits an `unsigned int`, the last frame `send_stats` sends writes to
`TotalFilament` the decimal of `m / 1000`, a dot and the digit
`(m / 100) mod 10`. -/
theorem send_stats_filament (C : Config) (w : World) (m : Nat)
    (hpc : C.PRINTCOUNTER = true) (hcap : 6 ≤ C.chars_size)
    (hm : w.filamentUsed = m) (hfit : m / 100 < 65536) :
    (send_stats C w).tx =
      w.tx ++
        [Frame.WriteRamDataRequest Variable.TotalPrints
          [Uint16 w.totalPrints, Uint16 w.finishedPrints],
         Frame.WriteRamDataRequest Variable.TotalPrintTime [Field.duration w.printTime],
         Frame.WriteRamDataRequest Variable.LongestPrintTime [Field.duration w.longestPrint],
         Frame.WriteRamDataRequest Variable.TotalFilament
          [Field.chars (toString (m / 1000) ++ "." ++ toString (m / 100 % 10))]] := by
  have t1 : truncate (w.filamentUsed / 1000) = ((m / 1000 : Nat) : Int) := by
    rw [hm]; exact_mod_cast truncate_natCast_div m 1000
  have t2 : truncate (w.filamentUsed / 100) = ((m / 100 : Nat) : Int) := by
    rw [hm]; exact_mod_cast truncate_natCast_div m 100
  have u1 : toUint16 ((m / 1000 : Nat) : Int) = m / 1000 := toUint16_natCast _ (by omega)
  have u2 : toUint16 ((m / 100 : Nat) : Int) = m / 100 := toUint16_natCast _ hfit
  have hlen : (toString (m / 1000) ++ "." ++ toString (m / 100 % 10)).length ≤ C.chars_size :=
    le_trans (filament_text_length _ _ (by omega) (by omega)) hcap
  have hchars : Chars C.chars_size
      (String.mk ((toString (m / 1000) ++ "." ++ toString (m / 100 % 10)).data.take C.chars_size))
      = Field.chars (toString (m / 1000) ++ "." ++ toString (m / 100 % 10)) := by
    unfold Chars
    rw [take_of_short _ _ hlen, take_of_short _ _ hlen]
  unfold send_stats
  simp only [hpc, if_true]
  rw [t1, t2, u1, u2, hchars]
  simp [send]

/-- C15 at 123456 millimetres: the text is `123.4`. -/
theorem send_stats_filament_witness :
    sample_config.PRINTCOUNTER = true ∧ 6 ≤ sample_config.chars_size
    ∧ stats_world.filamentUsed = ((123456 : Nat) : ℚ) ∧ 123456 / 100 < 65536
    ∧ (send_stats sample_config stats_world).tx =
      stats_world.tx ++
        [Frame.WriteRamDataRequest Variable.TotalPrints
          [Uint16 stats_world.totalPrints, Uint16 stats_world.finishedPrints],
         Frame.WriteRamDataRequest Variable.TotalPrintTime
          [Field.duration stats_world.printTime],
         Frame.WriteRamDataRequest Variable.LongestPrintTime
          [Field.duration stats_world.longestPrint],
         Frame.WriteRamDataRequest Variable.TotalFilament [Field.chars "123.4"]] :=
  ⟨rfl, by decide, by norm_num [stats_world], by decide,
    send_stats_filament sample_config stats_world 123456 rfl (by decide)
      (by norm_num [stats_world]) (by decide)⟩

/-! ## The member `last_page_` -/

@[simp] theorem set_last_page_millis (p : Page) (w : World) :
    (set_last_page p w).millis = w.millis := rfl

@[simp] theorem set_last_page_tx (p : Page) (w : World) :
    (set_last_page p w).tx = w.tx := rfl

@[simp] theorem set_last_page_rx (p : Page) (w : World) :
    (set_last_page p w).rx = w.rx := rfl

@[simp] theorem set_last_page_queue (p : Page) (w : World) :
    (set_last_page p w).queue = w.queue := rfl

@[simp] theorem set_last_page_external (p : Page) (w : World) :
    (set_last_page p w).external = w.external := rfl

@[simp] theorem set_last_page_relay_mode (p : Page) (w : World) :
    (set_last_page p w).relay_mode = w.relay_mode := rfl

@[simp] theorem set_last_page_memory_fault (p : Page) (w : World) :
    (set_last_page p w).memory_fault = w.memory_fault := rfl

@[simp] theorem set_last_page_axis_homed_X (p : Page) (w : World) :
    (set_last_page p w).axis_homed_X = w.axis_homed_X := rfl

@[simp] theorem set_last_page_axis_homed_Y (p : Page) (w : World) :
    (set_last_page p w).axis_homed_Y = w.axis_homed_Y := rfl

@[simp] theorem set_last_page_axis_homed_Z (p : Page) (w : World) :
    (set_last_page p w).axis_homed_Z = w.axis_homed_Z := rfl

@[simp] theorem set_last_page_target_temperature (p : Page) (w : World) :
    (set_last_page p w).target_temperature = w.target_temperature := rfl

@[simp] theorem set_last_page_current_temperature (p : Page) (w : World) :
    (set_last_page p w).current_temperature = w.current_temperature := rfl

@[simp] theorem set_last_page_target_temperature_bed (p : Page) (w : World) :
    (set_last_page p w).target_temperature_bed = w.target_temperature_bed := rfl

@[simp] theorem set_last_page_current_temperature_bed (p : Page) (w : World) :
    (set_last_page p w).current_temperature_bed = w.current_temperature_bed := rfl

@[simp] theorem set_last_page_fanSpeeds (p : Page) (w : World) :
    (set_last_page p w).fanSpeeds = w.fanSpeeds := rfl

@[simp] theorem set_last_page_feedrate_percentage (p : Page) (w : World) :
    (set_last_page p w).feedrate_percentage = w.feedrate_percentage := rfl

@[simp] theorem set_last_page_steps_per_mm_X (p : Page) (w : World) :
    (set_last_page p w).steps_per_mm_X = w.steps_per_mm_X := rfl

@[simp] theorem set_last_page_steps_per_mm_Y (p : Page) (w : World) :
    (set_last_page p w).steps_per_mm_Y = w.steps_per_mm_Y := rfl

@[simp] theorem set_last_page_steps_per_mm_Z (p : Page) (w : World) :
    (set_last_page p w).steps_per_mm_Z = w.steps_per_mm_Z := rfl

@[simp] theorem set_last_page_steps_per_mm_E (p : Page) (w : World) :
    (set_last_page p w).steps_per_mm_E = w.steps_per_mm_E := rfl

@[simp] theorem set_last_page_Kp (p : Page) (w : World) :
    (set_last_page p w).Kp = w.Kp := rfl

@[simp] theorem set_last_page_Ki (p : Page) (w : World) :
    (set_last_page p w).Ki = w.Ki := rfl

@[simp] theorem set_last_page_Kd (p : Page) (w : World) :
    (set_last_page p w).Kd = w.Kd := rfl

@[simp] theorem set_last_page_card_present (p : Page) (w : World) :
    (set_last_page p w).card_present = w.card_present := rfl

@[simp] theorem set_last_page_cardOK (p : Page) (w : World) :
    (set_last_page p w).cardOK = w.cardOK := rfl

@[simp] theorem set_last_page_sdprinting (p : Page) (w : World) :
    (set_last_page p w).sdprinting = w.sdprinting := rfl

@[simp] theorem set_last_page_card_files (p : Page) (w : World) :
    (set_last_page p w).card_files = w.card_files := rfl

@[simp] theorem set_last_page_card_filename (p : Page) (w : World) :
    (set_last_page p w).card_filename = w.card_filename := rfl

@[simp] theorem set_last_page_card_longFilename (p : Page) (w : World) :
    (set_last_page p w).card_longFilename = w.card_longFilename := rfl

@[simp] theorem set_last_page_card_requests (p : Page) (w : World) :
    (set_last_page p w).card_requests = w.card_requests := rfl

@[simp] theorem set_last_page_card_open (p : Page) (w : World) :
    (set_last_page p w).card_open = w.card_open := rfl

@[simp] theorem set_last_page_percentDone (p : Page) (w : World) :
    (set_last_page p w).percentDone = w.percentDone := rfl

@[simp] theorem set_last_page_print_job_timer (p : Page) (w : World) :
    (set_last_page p w).print_job_timer = w.print_job_timer := rfl

@[simp] theorem set_last_page_totalPrints (p : Page) (w : World) :
    (set_last_page p w).totalPrints = w.totalPrints := rfl

@[simp] theorem set_last_page_finishedPrints (p : Page) (w : World) :
    (set_last_page p w).finishedPrints = w.finishedPrints := rfl

@[simp] theorem set_last_page_printTime (p : Page) (w : World) :
    (set_last_page p w).printTime = w.printTime := rfl

@[simp] theorem set_last_page_longestPrint (p : Page) (w : World) :
    (set_last_page p w).longestPrint = w.longestPrint := rfl

@[simp] theorem set_last_page_filamentUsed (p : Page) (w : World) :
    (set_last_page p w).filamentUsed = w.filamentUsed := rfl

@[simp] theorem set_last_page_impl_last_file_index_ (p : Page) (w : World) :
    (set_last_page p w).impl.last_file_index_ = w.impl.last_file_index_ := rfl

@[simp] theorem set_last_page_impl_next_op_time_ (p : Page) (w : World) :
    (set_last_page p w).impl.next_op_time_ = w.impl.next_op_time_ := rfl

@[simp] theorem set_last_page_impl_next_update_time_ (p : Page) (w : World) :
    (set_last_page p w).impl.next_update_time_ = w.impl.next_update_time_ := rfl

@[simp] theorem set_last_page_impl_temp_graph_update_ (p : Page) (w : World) :
    (set_last_page p w).impl.temp_graph_update_ = w.impl.temp_graph_update_ := rfl

@[simp] theorem set_last_page_impl_presets_ (p : Page) (w : World) :
    (set_last_page p w).impl.presets_ = w.impl.presets_ := rfl

@[simp] theorem set_last_page_impl_adv_i3_pp_lcd_version_ (p : Page) (w : World) :
    (set_last_page p w).impl.adv_i3_pp_lcd_version_ = w.impl.adv_i3_pp_lcd_version_ := rfl

@[simp] theorem set_last_page_impl_last_page_ (p : Page) (w : World) :
    (set_last_page p w).impl.last_page_ = p := rfl

@[simp] theorem send_set_last_page (f : Frame) (p : Page) (w : World) :
    send f (set_last_page p w) = set_last_page p (send f w) := rfl

@[simp] theorem show_page_set_last_page (q : Page) (p : Page) (w : World) :
    show_page q (set_last_page p w) = set_last_page p (show_page q w) := rfl

@[simp] theorem enqueue_and_echo_command_set_last_page (s : String) (p : Page) (w : World) :
    enqueue_and_echo_command s (set_last_page p w) = set_last_page p (enqueue_and_echo_command s w) := rfl

@[simp] theorem enqueue_and_echo_commands_P_set_last_page (s : String) (p : Page) (w : World) :
    enqueue_and_echo_commands_P s (set_last_page p w) = set_last_page p (enqueue_and_echo_commands_P s w) := rfl

@[simp] theorem clear_command_queue_set_last_page (p : Page) (w : World) :
    clear_command_queue (set_last_page p w) = set_last_page p (clear_command_queue w) := rfl

@[simp] theorem call_external_set_last_page (s : String) (p : Page) (w : World) :
    call_external s (set_last_page p w) = set_last_page p (call_external s w) := rfl

@[simp] theorem setTargetHotend_set_last_page (t : Int) (p : Page) (w : World) :
    setTargetHotend t (set_last_page p w) = set_last_page p (setTargetHotend t w) := rfl

@[simp] theorem setTargetBed_set_last_page (t : Int) (p : Page) (w : World) :
    setTargetBed t (set_last_page p w) = set_last_page p (setTargetBed t w) := rfl

@[simp] theorem disable_all_heaters_set_last_page (p : Page) (w : World) :
    disable_all_heaters (set_last_page p w) = set_last_page p (disable_all_heaters w) := rfl

@[simp] theorem initsd_set_last_page (p : Page) (w : World) :
    initsd (set_last_page p w) = set_last_page p (initsd w) := rfl

@[simp] theorem openFile_set_last_page (s : String) (p : Page) (w : World) :
    openFile s (set_last_page p w) = set_last_page p (openFile s w) := rfl

@[simp] theorem stopSDPrint_set_last_page (p : Page) (w : World) :
    stopSDPrint (set_last_page p w) = set_last_page p (stopSDPrint w) := rfl

@[simp] theorem pauseSDPrint_set_last_page (p : Page) (w : World) :
    pauseSDPrint (set_last_page p w) = set_last_page p (pauseSDPrint w) := rfl

@[simp] theorem set_timer_set_last_page (tm : Timer) (p : Page) (w : World) :
    set_timer tm (set_last_page p w) = set_last_page p (set_timer tm w) := rfl

@[simp] theorem set_axis_homed_set_last_page (b : Bool) (p : Page) (w : World) :
    set_axis_homed b (set_last_page p w) = set_last_page p (set_axis_homed b w) := rfl

@[simp] theorem set_fanSpeeds_set_last_page (t : Int) (p : Page) (w : World) :
    set_fanSpeeds t (set_last_page p w) = set_last_page p (set_fanSpeeds t w) := rfl

@[simp] theorem set_feedrate_percentage_set_last_page (t : Int) (p : Page) (w : World) :
    set_feedrate_percentage t (set_last_page p w) = set_last_page p (set_feedrate_percentage t w) := rfl

@[simp] theorem set_motors_and_pid_set_last_page (x y z e g i d : ℚ) (p : Page) (w : World) :
    set_motors_and_pid x y z e g i d (set_last_page p w) = set_last_page p (set_motors_and_pid x y z e g i d w) := rfl

@[simp] theorem raise_memory_fault_set_last_page (p : Page) (w : World) :
    raise_memory_fault (set_last_page p w) = set_last_page p (raise_memory_fault w) := rfl

@[simp] theorem enter_relay_mode_set_last_page (p : Page) (w : World) :
    enter_relay_mode (set_last_page p w) = set_last_page p (enter_relay_mode w) := rfl

@[simp] theorem set_millis_set_last_page (n : Nat) (p : Page) (w : World) :
    set_millis n (set_last_page p w) = set_last_page p (set_millis n w) := rfl

@[simp] theorem consume_answer_set_last_page (p : Page) (w : World) :
    consume_answer (set_last_page p w) = set_last_page p (consume_answer w) := rfl

@[simp] theorem record_invoked_set_last_page (a : Action) (p : Page) (w : World) :
    record_invoked a (set_last_page p w) = set_last_page p (record_invoked a w) := rfl

@[simp] theorem set_background_task_set_last_page (bt : BackgroundTask) (p : Page) (w : World) :
    set_background_task bt (set_last_page p w) = set_last_page p (set_background_task bt w) := rfl

@[simp] theorem set_temp_graph_update_set_last_page (b : Bool) (p : Page) (w : World) :
    set_temp_graph_update b (set_last_page p w) = set_last_page p (set_temp_graph_update b w) := rfl

@[simp] theorem set_last_file_index_set_last_page (n : Nat) (p : Page) (w : World) :
    set_last_file_index n (set_last_page p w) = set_last_page p (set_last_file_index n w) := rfl

@[simp] theorem set_presets_set_last_page (ps : Presets) (p : Page) (w : World) :
    set_presets ps (set_last_page p w) = set_last_page p (set_presets ps w) := rfl

@[simp] theorem set_next_op_time_set_last_page (n : Nat) (p : Page) (w : World) :
    set_next_op_time n (set_last_page p w) = set_last_page p (set_next_op_time n w) := rfl

@[simp] theorem set_next_update_time_to_set_last_page (n : Nat) (p : Page) (w : World) :
    set_next_update_time_to n (set_last_page p w) = set_last_page p (set_next_update_time_to n w) := rfl

@[simp] theorem set_lcd_version_set_last_page (n : Nat) (p : Page) (w : World) :
    set_lcd_version n (set_last_page p w) = set_last_page p (set_lcd_version n w) := rfl

@[simp] theorem getnrfilenames_set_last_page (p : Page) (w : World) :
    getnrfilenames (set_last_page p w) = getnrfilenames w := rfl

@[simp] theorem receive_fst_set_last_page (n : Nat) (p : Page) (w : World) :
    (receive n (set_last_page p w)).1 = (receive n w).1 := by
  rcases h : w.rx with _ | ⟨_ | values, rest⟩ <;> simp [receive, h]
  split <;> rfl

@[simp] theorem getfilename_set_last_page (nr : Nat) (p : Page) (w : World) :
    getfilename nr (set_last_page p w) = set_last_page p (getfilename nr w) := by
  unfold getfilename
  dsimp only [set_last_page_card_files]
  split <;> rfl

@[simp] theorem startFileprint_set_last_page (p : Page) (w : World) :
    startFileprint (set_last_page p w) = set_last_page p (startFileprint w) := by
  unfold startFileprint
  dsimp only [set_last_page_cardOK]
  split <;> rfl

theorem get_file_names_set_last_page (C : Config) (l : List Nat) (p : Page)
    (w : World) :
    (get_file_names C l (set_last_page p w)).1 = (get_file_names C l w).1
    ∧ (get_file_names C l (set_last_page p w)).2 = set_last_page p (get_file_names C l w).2 := by
  induction l generalizing w with
  | nil => exact ⟨rfl, rfl⟩
  | cons i rest ih =>
    simp only [get_file_names, get_file_name, set_last_page_impl_last_file_index_,
      getfilename_set_last_page, set_last_page_card_longFilename]
    exact ⟨by rw [(ih _).1], (ih _).2⟩

@[simp] theorem get_file_names_fst_set_last_page (C : Config) (l : List Nat) (p : Page)
    (w : World) :
    (get_file_names C l (set_last_page p w)).1 = (get_file_names C l w).1 :=
  (get_file_names_set_last_page C l p w).1

@[simp] theorem get_file_names_snd_set_last_page (C : Config) (l : List Nat) (p : Page)
    (w : World) :
    (get_file_names C l (set_last_page p w)).2 = set_last_page p (get_file_names C l w).2 :=
  (get_file_names_set_last_page C l p w).2

theorem get_lcd_firmware_version_set_last_page (p : Page) (w : World) :
    (get_lcd_firmware_version (set_last_page p w)).1 = (get_lcd_firmware_version w).1
    ∧ (get_lcd_firmware_version (set_last_page p w)).2
      = set_last_page p (get_lcd_firmware_version w).2 := by
  unfold get_lcd_firmware_version
  simp only [send_set_last_page, receive_fst_set_last_page, receive_snd,
    consume_answer_set_last_page]
  split <;> exact ⟨rfl, rfl⟩

@[simp] theorem send_versions_set_last_page (C : Config) (p : Page) (w : World) :
    send_versions C (set_last_page p w) = set_last_page p (send_versions C w) := by
  unfold send_versions
  simp only [set_last_page_impl_adv_i3_pp_lcd_version_,
    (get_lcd_firmware_version_set_last_page p w).1,
    (get_lcd_firmware_version_set_last_page p w).2, send_set_last_page]

@[simp] theorem send_stats_set_last_page (C : Config) (p : Page) (w : World) :
    send_stats C (set_last_page p w) = set_last_page p (send_stats C w) := by
  unfold send_stats
  simp only [set_last_page_totalPrints, set_last_page_finishedPrints, set_last_page_printTime,
    set_last_page_longestPrint, set_last_page_filamentUsed, send_set_last_page]
  split <;> rfl

@[simp] theorem sd_card_scroll_set_last_page (C : Config) (k : Nat) (p : Page) (w : World) :
    sd_card_scroll C k (set_last_page p w) = set_last_page p (sd_card_scroll C k w) := by
  unfold sd_card_scroll
  simp only [getnrfilenames_set_last_page, set_last_page_impl_last_file_index_,
    set_last_file_index_set_last_page]
  split_ifs <;> rfl

@[simp] theorem sd_card_list_set_last_page (C : Config) (k : Nat) (p : Page) (w : World) :
    sd_card_list C k (set_last_page p w) = set_last_page p (sd_card_list C k w) := by
  unfold sd_card_list
  rw [set_last_page_cardOK]
  split_ifs with h
  · dsimp only
    rw [sd_card_scroll_set_last_page, get_file_names_fst_set_last_page,
      get_file_names_snd_set_last_page, send_set_last_page, show_page_set_last_page]
  · rfl

theorem sd_card_set_last_page (C : Config) (k : Nat) (p : Page) (w : World) :
    sd_card C k (set_last_page p w) = set_last_page p (sd_card C k w) := by
  unfold sd_card
  rw [set_last_page_sdprinting]
  split
  · rfl
  · split
    · dsimp only
      rw [initsd_set_last_page, set_last_page_cardOK]
      split
      · rw [getnrfilenames_set_last_page, set_last_file_index_set_last_page,
          sd_card_list_set_last_page]
      · rfl
    · exact sd_card_list_set_last_page C k p w

theorem filament_set_last_page (C : Config) (k : Nat) (p : Page) (w : World) :
    filament C k (set_last_page p w) = set_last_page p (filament C k w) := by
  unfold filament
  split
  · rfl
  · dsimp only
    rw [send_set_last_page, receive_fst_set_last_page, receive_snd, receive_snd,
      consume_answer_set_last_page]
    split
    · rfl
    · rw [setTargetHotend_set_last_page, enqueue_and_echo_commands_P_set_last_page,
        set_last_page_millis, set_next_op_time_set_last_page,
        set_background_task_set_last_page]

theorem preheat_set_last_page (C : Config) (k : Nat) (p : Page) (w : World) :
    preheat C k (set_last_page p w) = set_last_page p (preheat C k w) := by
  unfold preheat
  split
  · rfl
  · dsimp only
    rw [send_set_last_page, receive_fst_set_last_page, receive_snd, receive_snd,
      consume_answer_set_last_page]
    split
    · rfl
    · split
      · rfl
      · rw [set_presets_set_last_page, enqueue_and_echo_commands_P_set_last_page]
        have e1 : ∀ ps v, (set_last_page p (enqueue_and_echo_commands_P "M500"
            (set_presets ps v))).impl.presets_ = ps := fun _ _ => rfl
        have e2 : ∀ ps v, (enqueue_and_echo_commands_P "M500"
            (set_presets ps v)).impl.presets_ = ps := fun _ _ => rfl
        rw [e1, e2]
        generalize (k % 65536 + 65535) % 65536 = idx
        split <;> rfl

/-- A handler other than `temperature_graph` does not read `last_page_`: the
value stored there goes through the handler untouched and has no effect on
anything else. -/
theorem handler_set_last_page (C : Config) (a : Action) (k : Nat) (p : Page) (w : World)
    (h : a ≠ Action.TemperatureGraph) :
    handler C a k (set_last_page p w) = set_last_page p (handler C a k w) := by
  cases a
  case TemperatureGraph => exact absurd rfl h
  case Preheat => exact preheat_set_last_page C k p w
  case SdCard => exact sd_card_set_last_page C k p w
  case Filament => exact filament_set_last_page C k p w
  all_goals
    simp only [handler, sd_card_select_file, print_stop, print_pause, print_resume,
      cooldown, motors_or_pid_settings, save_motors_or_pid_settings, factory_reset,
      print_settings, save_print_settings, load_unload_back, level, level_step, move,
      move_x_plus, move_x_minus, move_y_plus, move_y_minus, move_z_plus, move_z_minus,
      move_e_plus, move_e_minus, disable_motors, home_X, home_y, home_z, home_all, statistics,
      pid_tuning, print, lcd_update_mode, about]
    simp
    try ((repeat' split) <;> simp_all)

theorem set_last_page_self (w : World) : set_last_page w.impl.last_page_ w = w := by
  cases w; rfl

theorem handler_last_page (C : Config) (a : Action) (k : Nat) (w : World)
    (h : a ≠ Action.TemperatureGraph) :
    (handler C a k w).impl.last_page_ = w.impl.last_page_ := by
  have e := handler_set_last_page C a k w.impl.last_page_ w h
  rw [set_last_page_self] at e
  rw [e]
  rfl

@[simp] theorem set_background_task_impl_last_page_ (t : BackgroundTask) (w : World) :
    (set_background_task t w).impl.last_page_ = w.impl.last_page_ := rfl

@[simp] theorem set_next_op_time_impl_last_page_ (n : Nat) (w : World) :
    (set_next_op_time n w).impl.last_page_ = w.impl.last_page_ := rfl

@[simp] theorem set_next_update_time_to_impl_last_page_ (n : Nat) (w : World) :
    (set_next_update_time_to n w).impl.last_page_ = w.impl.last_page_ := rfl

theorem execute_background_task_last_page (w : World) :
    (execute_background_task w).impl.last_page_ = w.impl.last_page_ := by
  unfold execute_background_task
  split
  · rfl
  · split
    · unfold leveling_init
      split <;> simp [set_next_background_task_time]
    · unfold unload_filament
      dsimp only
      split <;> simp [set_next_background_task_time]
    · unfold load_filament
      dsimp only
      split <;> simp [set_next_background_task_time]
    · rfl

theorem send_status_update_last_page (w : World) :
    (send_status_update w).impl.last_page_ = w.impl.last_page_ := by
  unfold send_status_update
  dsimp only
  split
  · rfl
  · split <;> simp [update_graph_data, set_next_update_time]

theorem read_lcd_serial_last_page (C : Config) (frame : Incoming) (w : World)
    (h : not_temperature_graph C frame) :
    (read_lcd_serial C frame w).impl.last_page_ = w.impl.last_page_ := by
  cases frame with
  | NotAvailable => rfl
  | Malformed => rfl
  | Received command action nb_words value =>
    have hs := h command action nb_words value rfl
    unfold read_lcd_serial
    dsimp only
    split
    · next a ha =>
      rw [handler_last_page C a _ _ (by rintro rfl; exact hs ha)]
      rfl
    · rfl

theorem task_last_page (C : Config) (frame : Incoming) (w : World)
    (h : not_temperature_graph C frame) :
    (task C frame w).impl.last_page_ = w.impl.last_page_ := by
  unfold task
  split
  · rfl
  · dsimp only
    split
    · exact read_lcd_serial_last_page C frame w h
    · rw [send_status_update_last_page, execute_background_task_last_page,
        read_lcd_serial_last_page C frame w h]

theorem run_last_page (C : Config) (inputs : List (Nat × Incoming)) (w : World)
    (h : ∀ i ∈ inputs, not_temperature_graph C i.2) :
    (run C w inputs).impl.last_page_ = w.impl.last_page_ := by
  induction inputs generalizing w with
  | nil => rfl
  | cons i rest ih =>
    have hi := h i (List.mem_cons_self _ _)
    have hr : ∀ j ∈ rest, not_temperature_graph C j.2 :=
      fun j hj => h j (List.mem_cons_of_mem _ hj)
    show (run C (task_at C w i) rest).impl.last_page_ = _
    rw [ih _ hr]
    unfold task_at
    rw [task_last_page C _ _ hi]
    rfl

theorem temperature_graph_stores_page (C : Config) (k b0 b1 : Nat)
    (rest : List (Option (List Nat))) (w : World)
    (hk : k ≠ C.Back) (hrx : w.rx = some [b0, b1] :: rest) :
    temperature_graph C k w =
      show_page Page.Temperature (set_temp_graph_update true
        (set_last_page (C.page_of_word (b0 % 256 * 256 + b1 % 256))
          (consume_answer (send (Frame.ReadRegisterDataRequest Register.PictureID 2) w)))) := by
  have hr : (receive 2 (send (Frame.ReadRegisterDataRequest Register.PictureID 2) w)).1
      = some [b0, b1] := receive_of_answer 2 _ [b0, b1] rest hrx rfl
  unfold temperature_graph
  rw [if_neg hk]
  unfold get_current_page
  dsimp only
  rw [hr, receive_snd]
  rfl

theorem temperature_graph_back (C : Config) (w : World) :
    temperature_graph C C.Back w =
      show_page w.impl.last_page_ (set_temp_graph_update false w) := by
  unfold temperature_graph
  rw [if_pos rfl]

/-- C16: `temperature_graph` is called with a key other than `Back` while the
panel answers the read of `PictureID` with the bytes of a page `P`; any number
of cycles follow, none of which reaches `temperature_graph`; then
`temperature_graph` is called with `Back`. The call with `Back` sends exactly
the frame that requests `P` and leaves graph updates off. No other handler
writes or reads `last_page_`: a value stored there goes through the handler
untouched and has no effect on what the handler does. -/
theorem temperature_graph_returns (C : Config) (k b0 b1 : Nat)
    (rest : List (Option (List Nat))) (w : World) (inputs : List (Nat × Incoming))
    (hk : k ≠ C.Back) (hrx : w.rx = some [b0, b1] :: rest)
    (hin : ∀ i ∈ inputs, not_temperature_graph C i.2) :
    (temperature_graph C k w).impl.last_page_ = C.page_of_word (b0 % 256 * 256 + b1 % 256)
    ∧ (temperature_graph C C.Back (run C (temperature_graph C k w) inputs)).tx =
        (run C (temperature_graph C k w) inputs).tx ++
          [Frame.WriteRegisterDataRequest Register.PictureID
            [Field.u8 0, Field.page (C.page_of_word (b0 % 256 * 256 + b1 % 256))]]
    ∧ (temperature_graph C C.Back
        (run C (temperature_graph C k w) inputs)).impl.temp_graph_update_ = false
    ∧ (∀ a k2 p v, a ≠ Action.TemperatureGraph →
        handler C a k2 (set_last_page p v) = set_last_page p (handler C a k2 v)) := by
  have h1 : (temperature_graph C k w).impl.last_page_
      = C.page_of_word (b0 % 256 * 256 + b1 % 256) := by
    rw [temperature_graph_stores_page C k b0 b1 rest w hk hrx]
    rfl
  have h2 := run_last_page C inputs (temperature_graph C k w) hin
  rw [h1] at h2
  refine ⟨h1, ?_, ?_, fun a k2 p v h => handler_set_last_page C a k2 p v h⟩
  · rw [temperature_graph_back, h2]
    rfl
  · rw [temperature_graph_back]
    rfl

theorem page_inputs_not_temperature_graph :
    ∀ i ∈ page_inputs, not_temperature_graph sample_config i.2 := by
  intro i hi
  simp only [page_inputs, List.mem_cons, List.mem_singleton, List.not_mem_nil, or_false] at hi
  rcases hi with rfl | rfl
  · intro command action nb_words value h
    cases h
    decide
  · intro command action nb_words value h
    cases h

/-- C16 with the page 7: the graph is opened with the key 0, a `HomeAll` cycle
and an idle cycle follow, and `Back` requests the page 7. -/
theorem temperature_graph_returns_witness :
    (0 : Nat) ≠ sample_config.Back
    ∧ page_world.rx = [some [0, 7]]
    ∧ (∀ i ∈ page_inputs, not_temperature_graph sample_config i.2)
    ∧ (temperature_graph sample_config sample_config.Back
        (run sample_config (temperature_graph sample_config 0 page_world) page_inputs)).tx =
        (run sample_config (temperature_graph sample_config 0 page_world) page_inputs).tx ++
          [Frame.WriteRegisterDataRequest Register.PictureID
            [Field.u8 0, Field.page (Page.Other 7)]] :=
  ⟨by decide, rfl, page_inputs_not_temperature_graph,
    (temperature_graph_returns sample_config 0 0 7 [] page_world page_inputs (by decide) rfl
      page_inputs_not_temperature_graph).2.1⟩

/-! ## SD card -/

/-- C17 on a card with one file: `sd_card` with `Show` sets `last_file_index_`
to 0 and requests the files 0, 65535, 65534, 65533 and 65532 from the card.
On a card with six files `Show` requests 5, 4, 3, 2, 1, and `Down` then
requests 0, 65535, 65534, 65533 and 65532. -/
theorem sd_card_requests_outside_card :
    one_file_world.card_files.length = 1
    ∧ (sd_card sample_config sample_config.Show one_file_world).cardOK = true
    ∧ (sd_card sample_config sample_config.Show one_file_world).card_requests
        = [0, 65535, 65534, 65533, 65532]
    ∧ six_files_world.card_files.length = 6
    ∧ (sd_card sample_config sample_config.Show six_files_world).card_requests
        = [5, 4, 3, 2, 1]
    ∧ (sd_card sample_config sample_config.Down
        (sd_card sample_config sample_config.Show six_files_world)).card_requests
        = [5, 4, 3, 2, 1, 0, 65535, 65534, 65533, 65532] := by
  decide

@[simp] theorem getfilename_card_requests (nr : Nat) (w : World) :
    (getfilename nr w).card_requests = w.card_requests ++ [nr] := by
  unfold getfilename; dsimp only; split <;> rfl

@[simp] theorem getfilename_card_files (nr : Nat) (w : World) :
    (getfilename nr w).card_files = w.card_files := by
  unfold getfilename; dsimp only; split <;> rfl

theorem getfilename_of_file (nr : Nat) (w : World) (f : SdFile)
    (h : w.card_files[nr]? = some f) :
    (getfilename nr w).card_longFilename = f.longFilename
    ∧ (getfilename nr w).card_filename = f.filename
    ∧ (getfilename nr w).tx = w.tx
    ∧ (getfilename nr w).cardOK = w.cardOK := by
  unfold getfilename; dsimp only; rw [h]; exact ⟨rfl, rfl, rfl, rfl⟩

theorem get_file_names_requests (C : Config) (l : List Nat) (w : World) :
    (get_file_names C l w).2.card_requests =
      w.card_requests ++ l.map (fun j => (w.impl.last_file_index_ + 65536 - j) % 65536)
    ∧ (get_file_names C l w).2.card_files = w.card_files := by
  induction l generalizing w with
  | nil => simp [get_file_names]
  | cons i rest ih =>
    simp only [get_file_names, get_file_name]
    rw [(ih _).1, (ih _).2]
    simp

theorem get_file_names_row (C : Config) (l : List Nat) (w : World) (i : Nat) (j : Nat)
    (f : SdFile) (hj : l[i]? = some j)
    (hf : w.card_files[(w.impl.last_file_index_ + 65536 - j) % 65536]? = some f) :
    (get_file_names C l w).1[i]? = some (Chars C.chars_size f.longFilename) := by
  induction l generalizing w i with
  | nil => simp at hj
  | cons a rest ih =>
    cases i with
    | zero =>
      simp only [List.getElem?_cons_zero, Option.some.injEq] at hj
      subst hj
      simp only [get_file_names, get_file_name, List.getElem?_cons_zero]
      rw [(getfilename_of_file _ w f hf).1]
    | succ n =>
      simp only [List.getElem?_cons_succ] at hj
      simp only [get_file_names, get_file_name, List.getElem?_cons_succ]
      apply ih _ n hj
      simpa using hf

theorem startFileprint_of_cardOK (w : World) (h : w.cardOK = true) :
    startFileprint w = { w with sdprinting := true } := by
  unfold startFileprint
  rw [if_pos h]

/-- Behaviour of `sd_card_select_file(i)` for a 16-bit `i`, with
`last_file_index_ = L`. When the card is not usable or `i > L`, nothing changes:
no frame, no page, no print. When the card is usable, `i <= L` and the card has
a file at the index `L - i`, the handler requests this index from the card,
sends the long name of this file, opens the file by its short name, starts the
print and the timer, switches graph updates on and requests the page `Print`;
for `i < 5` the index and the name are those `get_file_names` requests and
returns for row `i`. -/
theorem sd_card_select_file_row (C : Config) (i : Nat) (w : World) (hi : i < 65536)
    (hL : w.impl.last_file_index_ < 65536) :
    ((w.cardOK = false ∨ w.impl.last_file_index_ < i) → sd_card_select_file C i w = w)
    ∧ (w.cardOK = true → i ≤ w.impl.last_file_index_ →
      ∀ f, w.card_files[w.impl.last_file_index_ - i]? = some f →
        (sd_card_select_file C i w).card_requests
          = w.card_requests ++ [w.impl.last_file_index_ - i]
        ∧ (sd_card_select_file C i w).card_open = some f.filename
        ∧ (sd_card_select_file C i w).sdprinting = true
        ∧ (sd_card_select_file C i w).print_job_timer = Timer.Running
        ∧ (sd_card_select_file C i w).impl.temp_graph_update_ = true
        ∧ (sd_card_select_file C i w).tx =
          w.tx ++ [Frame.WriteRamDataRequest Variable.SelectedFileName
              [Chars C.chars_size f.longFilename],
            Frame.WriteRegisterDataRequest Register.PictureID
              [Field.u8 0, Field.page Page.Print]]
        ∧ (i < 5 →
          (get_file_names C (List.range NB_VISIBLE_FILES) w).2.card_requests[
              w.card_requests.length + i]? = some (w.impl.last_file_index_ - i)
          ∧ (get_file_names C (List.range NB_VISIBLE_FILES) w).1[i]?
              = some (Chars C.chars_size f.longFilename))) := by
  constructor
  · rintro (h | h)
    · simp [sd_card_select_file, h]
    · have hlt : i % 65536 > w.impl.last_file_index_ := by omega
      simp [sd_card_select_file, hlt]
  · intro hok hle f hf
    have hmod : i % 65536 = i := by omega
    have hidx : (w.impl.last_file_index_ + 65536 - i) % 65536 = w.impl.last_file_index_ - i := by
      omega
    have hnot : ¬ (i > w.impl.last_file_index_) := by omega
    obtain ⟨g1, g2, g3, g4⟩ := getfilename_of_file _ w f hf
    have e : sd_card_select_file C i w =
        show_page Page.Print (set_temp_graph_update true (set_timer Timer.Running
          (startFileprint (openFile f.filename
            (send (Frame.WriteRamDataRequest Variable.SelectedFileName
              [Chars C.chars_size f.longFilename])
              (getfilename (w.impl.last_file_index_ - i) w)))))) := by
      have g5 : ∀ fr, (send fr (getfilename (w.impl.last_file_index_ - i) w)).card_filename
          = f.filename := fun _ => g2
      unfold sd_card_select_file
      simp only [hok, hmod, hidx, hnot, not_true_eq_false, if_false, g1, g5]
    have hcard : (openFile f.filename
        (send (Frame.WriteRamDataRequest Variable.SelectedFileName
          [Chars C.chars_size f.longFilename])
          (getfilename (w.impl.last_file_index_ - i) w))).cardOK = true := by
      show (getfilename (w.impl.last_file_index_ - i) w).cardOK = true
      rw [g4, hok]
    rw [startFileprint_of_cardOK _ hcard] at e
    have hreq := get_file_names_requests C (List.range NB_VISIBLE_FILES) w
    refine ⟨?_, ?_, ?_, ?_, ?_, ?_, ?_⟩
    · rw [e]
      show (getfilename (w.impl.last_file_index_ - i) w).card_requests = _
      rw [getfilename_card_requests]
    · rw [e]; rfl
    · rw [e]; rfl
    · rw [e]; rfl
    · rw [e]; rfl
    · rw [e]
      show ((getfilename (w.impl.last_file_index_ - i) w).tx ++ _) ++ _ = _
      rw [g3, List.append_assoc]
      rfl
    · intro h5
      constructor
      · rw [hreq.1, List.getElem?_append_right (le_add_right (le_refl _))]
        simp [NB_VISIBLE_FILES, h5, hidx]
      · apply get_file_names_row C _ w i i f
        · simp [NB_VISIBLE_FILES, h5]
        · rw [hidx]; exact hf

/-- Selection on the card with six files listed from the index 5: row 2 is the
file at the index 3. -/
theorem sd_card_select_file_row_witness :
    (2 : Nat) < 65536 ∧ listed_world.impl.last_file_index_ < 65536
    ∧ listed_world.cardOK = true ∧ 2 ≤ listed_world.impl.last_file_index_
    ∧ listed_world.card_files[listed_world.impl.last_file_index_ - 2]?
        = some { filename := "D.GCO", longFilename := "d.gcode" }
    ∧ (sd_card_select_file sample_config 2 listed_world).card_requests
        = listed_world.card_requests ++ [listed_world.impl.last_file_index_ - 2]
    ∧ (sd_card_select_file sample_config 2 listed_world).card_open = some "D.GCO" :=
  ⟨by decide, by decide, rfl, by decide, by decide,
    ((sd_card_select_file_row sample_config 2 listed_world (by decide) (by decide)).2 rfl
      (by decide) { filename := "D.GCO", longFilename := "d.gcode" } (by decide)).1,
    ((sd_card_select_file_row sample_config 2 listed_world (by decide) (by decide)).2 rfl
      (by decide) { filename := "D.GCO", longFilename := "d.gcode" } (by decide)).2.1⟩

/-- C19 on a usable card that holds no file: `sd_card(Show)` stores
`getnrfilenames() - 1 = 65535` in `last_file_index_`, so row 0 passes the guard
of `sd_card_select_file`. The handler requests the index 65535, where the card
has no file, sends the name left in the buffer, opens `OLD.GCO`, a name that is
not on the card, starts the print and the timer and requests the page `Print`. -/
theorem sd_card_select_file_on_empty_card :
    empty_card_world.card_files = []
    ∧ (sd_card sample_config sample_config.Show empty_card_world).cardOK = true
    ∧ (sd_card sample_config sample_config.Show empty_card_world).impl.last_file_index_
        = 65535
    ∧ (sd_card_select_file sample_config 0
        (sd_card sample_config sample_config.Show empty_card_world)).card_requests
        = [65535, 65534, 65533, 65532, 65531, 65535]
    ∧ (sd_card_select_file sample_config 0
        (sd_card sample_config sample_config.Show empty_card_world)).card_open
        = some "OLD.GCO"
    ∧ (sd_card_select_file sample_config 0
        (sd_card sample_config sample_config.Show empty_card_world)).sdprinting = true
    ∧ (sd_card_select_file sample_config 0
        (sd_card sample_config sample_config.Show empty_card_world)).print_job_timer
        = Timer.Running
    ∧ (sd_card_select_file sample_config 0
        (sd_card sample_config sample_config.Show empty_card_world)).tx.drop 2
        = [Frame.WriteRamDataRequest Variable.SelectedFileName [Field.chars "old.gcode"],
           Frame.WriteRegisterDataRequest Register.PictureID
            [Field.u8 0, Field.page Page.Print]] := by
  decide

/-! ## Print settings -/

/-- C18, the fan at 100 percent: when the panel answers the read of the print
settings with the fan word 100, `save_print_settings` stores
`scale(100, 100, 256) = 256` in `fanSpeeds[0]`, outside of 0..255. -/
theorem save_print_settings_fan_full :
    print_settings_world.rx = [some [100, 200, 60, 100]]
    ∧ (save_print_settings print_settings_world).fanSpeeds = 256 := by
  decide

end advi3pp
